import Mathlib

/-!
Verification development for the Discadian Discord/EarthMC verification bot.

This file gives a shallow embedding, in Lean 4, of the data model and the
operations of the bot that the correctness claims concern:

* the Discord link validator (`verification/links.py`);
* the durable verification cache with its three secondary indexes and its
  v1.0 to v2.0 format migration (`utils/verification_cache.py`);
* the county assignment table and its administrative operations
  (`county/system.py`);
* the batched town lookup of the API client (`api/earthmc.py`);
* the periodic reconciliation scheduler (`verification/periodic.py`);
* the verification engine (`verification/core.py`).

Python dicts are modelled as insertion-ordered association lists, Python
`None` as `Option.none`, machine floats that only ever carry exact
measurements as `ℚ`, and network calls as explicit environment parameters.
Persistence (`_save_cache`, `config_manager.save_config`) is modelled as
succeeding: the in-memory state transition that the source performs is the
object of study, and the source mutates in-memory state before (and
regardless of whether) the disk write succeeds.
-/

namespace Discadian

/-- Uniform success/failure result dictionary used by every function of the
API client (`api/earthmc.py`): a Python dict of the shape
`{"success": True, "data": ...}` or `{"success": False, "error": "..."}`. -/
inductive PyResult (α : Type) where
  | success (data : α)
  | failure (error : String)
deriving Repr, DecidableEq

/-- Lookup in an insertion-ordered association list, the model of a Python
dict: the first binding of the key wins (dicts built by the modelled code
bind every key at most once). -/
def lookupD {κ β : Type} [DecidableEq κ] : List (κ × β) → κ → Option β
  | [], _ => none
  | (k1, v) :: rest, k => if k1 = k then some v else lookupD rest k

/-- Model of a Python dict assignment `d[k] = v`: replace the value in place
if the key is present (keeping its position), otherwise append the new
binding at the end (insertion order). -/
def insertD {κ β : Type} [DecidableEq κ] : List (κ × β) → κ → β → List (κ × β)
  | [], k, v => [(k, v)]
  | (k1, v1) :: rest, k, v =>
      if k1 = k then (k1, v) :: rest else (k1, v1) :: insertD rest k v

/-- Model of a Python dict deletion `del d[k]`: remove the first binding of
the key, and do nothing when the key is absent (the modelled code only
deletes after a membership check, so the two agree). -/
def eraseD {κ β : Type} [DecidableEq κ] : List (κ × β) → κ → List (κ × β)
  | [], _ => []
  | (k1, v1) :: rest, k => if k1 = k then rest else (k1, v1) :: eraseD rest k

/-- Python truthiness of an optional string: `None` and the empty string are
falsy, every other string is truthy. -/
def truthyS : Option String → Bool
  | none => false
  | some s => s ≠ ""

/-- Underlying string of an optional string, used only where the source has
already established truthiness (so the value is a nonempty string). -/
def strVal : Option String → String
  | none => ""
  | some s => s

/-- Rendering of an optional string inside a Python f-string: `None` prints
as the four characters `None`. -/
def pyShow : Option String → String
  | none => "None"
  | some s => s

/-- Python `x or y` on optional strings: the left operand when it is truthy,
otherwise the right operand. -/
def pyOr (a b : Option String) : Option String :=
  if truthyS a then a else b

/-- Python `str.lower()` as used on IGN index keys (character-wise
lowercasing; IGNs are ASCII). -/
def pyLower (s : String) : String :=
  String.mk (s.toList.map Char.toLower)

/-! ## Identity link validator (`verification/links.py`) -/

/-- One entry of the Discord-link endpoint response: a record with nullable
`id` (Discord ID) and `uuid` (player UUID) fields.  A `none` element of the
response list models both a JSON `null` entry and a non-dict entry, which
`parse_link_data` skips alike. -/
structure LinkEntry where
  id : Option String
  uuid : Option String
deriving Repr, DecidableEq

/-- One iteration of the entry loop of `parse_link_data`
(`verification/links.py` lines 18-35): a `None`/non-dict entry and an entry
with a null `id` or `uuid` field leave the accumulator unchanged; a valid
entry overwrites the Discord-side slot when its `id` matches and the
Minecraft-side slot when its `uuid` matches. -/
def parseLinkStep (discord_id player_uuid : String)
    (acc : Option LinkEntry × Option LinkEntry) (entry : Option LinkEntry) :
    Option LinkEntry × Option LinkEntry :=
  match entry with
  | none => acc
  | some e =>
      match e.id, e.uuid with
      | some eid, some euuid =>
          let acc1 := if eid = discord_id then (some e, acc.2) else acc
          if euuid = player_uuid then (acc1.1, some e) else acc1
      | _, _ => acc

/-- Model of `parse_link_data` (`verification/links.py` lines 7-38):
fold the entry loop over the response list, starting from
`(discord_link, minecraft_link) = (None, None)`. -/
def parse_link_data (link_data : List (Option LinkEntry))
    (discord_id player_uuid : String) : Option LinkEntry × Option LinkEntry :=
  link_data.foldl (parseLinkStep discord_id player_uuid) (none, none)

/-- Shared header of every contradiction message built by
`check_link_contradictions`. -/
def linkContradictionHeader (discord_id ign : String) : String :=
  "**Link Contradiction Detected**\nDiscord: <@" ++ discord_id ++
    ">\nAttempted IGN: `" ++ ign ++ "`\n"

/-- Model of `check_link_contradictions` (`verification/links.py` lines
40-74), including the exact message strings of the four contradiction
cases. -/
def check_link_contradictions (discord_link minecraft_link : Option LinkEntry)
    (discord_id ign player_uuid : String) : Option String :=
  match discord_link, minecraft_link with
  | some dl, some ml =>
      if dl.uuid ≠ some player_uuid then
        some (linkContradictionHeader discord_id ign ++
          "Issue: Discord is linked to UUID `" ++ pyShow dl.uuid ++
          "`, but `" ++ ign ++ "` has UUID `" ++ player_uuid ++ "`")
      else if ml.id ≠ some discord_id then
        some (linkContradictionHeader discord_id ign ++
          "Issue: IGN `" ++ ign ++ "` is linked to Discord ID `" ++
          pyShow ml.id ++ "`, not the provided Discord account")
      else none
  | some dl, none =>
      some (linkContradictionHeader discord_id ign ++
        "Issue: Discord is linked to UUID `" ++ pyShow dl.uuid ++
        "`, not `" ++ ign ++ "`")
  | none, some ml =>
      some (linkContradictionHeader discord_id ign ++
        "Issue: IGN `" ++ ign ++ "` is linked to Discord ID `" ++
        pyShow ml.id ++ "`, not the provided Discord account")
  | none, none => none

/-- Model of `verify_discord_links` (`verification/links.py` lines 76-100).
The network call `check_discord_link` is an environment parameter
`link_result`; on transport failure the function reports a
contradiction-shaped failure, otherwise it parses the response and checks
for contradictions, and reports `is_linked` exactly when both sides of the
link are present. -/
def verify_discord_links (link_result : PyResult (List (Option LinkEntry)))
    (discord_id ign player_uuid : String) : Bool × Option String × Bool :=
  match link_result with
  | .failure err => (true, some ("Error checking Discord link: " ++ err), false)
  | .success link_data =>
      let parsed := parse_link_data link_data discord_id player_uuid
      match check_link_contradictions parsed.1 parsed.2 discord_id ign player_uuid with
      | some msg => (true, some msg, false)
      | none => (false, none, parsed.1.isSome && parsed.2.isSome)

/-- Link endpoint response of the first scenario of claim C1: the
Discord-side probe answers with the record `(id 111, uuid aaa)` and the
Minecraft-side probe with `(id 222, uuid aaa)`. -/
def c1LinkDataTwo : List (Option LinkEntry) :=
  [some ⟨some "111", some "aaa"⟩, some ⟨some "222", some "aaa"⟩]

/-- Link endpoint response of the second scenario of claim C1: the single
record `(id 111, uuid bbb)`. -/
def c1LinkDataOne : List (Option LinkEntry) :=
  [some ⟨some "111", some "bbb"⟩]

/-- Claim C1, counterexample.  The claim asserts that with link records
`(id 111, uuid aaa)` and `(id 222, uuid aaa)` for the attempt
`discordId = 111, playerUUID = aaa`, `verify_discord_links` reports no
contradiction.  In fact the Minecraft-side record becomes `(222, aaa)`, its
`id` differs from the claimed Discord ID `111`, and the second branch of
`check_link_contradictions` fires: `has_contradiction` is `true`. -/
theorem claim_C1_counterexample :
    (verify_discord_links (PyResult.success c1LinkDataTwo) "111" "Steve" "aaa").1 = true := by
  decide

/-- Claim C1, amended.  With records `(111, aaa)` and `(222, aaa)` and the
attempt `discordId = 111, playerUUID = aaa`, a contradiction is raised whose
detail names the other Discord ID `222` (the Minecraft side of the claimed
UUID is linked elsewhere); with the single record `(111, bbb)`, a
contradiction is raised whose detail names the mismatched UUID `bbb`; and an
entry with a null `id` or a null `uuid` field is never taken as a valid
link, leaving the parser accumulator unchanged. -/
theorem claim_C1_theorem (ign : String) (e : LinkEntry)
    (acc : Option LinkEntry × Option LinkEntry)
    (h : e.id = none ∨ e.uuid = none) :
    verify_discord_links (PyResult.success c1LinkDataTwo) "111" ign "aaa" =
      (true, some (linkContradictionHeader "111" ign ++
        "Issue: IGN `" ++ ign ++ "` is linked to Discord ID `" ++ "222" ++
        "`, not the provided Discord account"), false) ∧
    verify_discord_links (PyResult.success c1LinkDataOne) "111" ign "aaa" =
      (true, some (linkContradictionHeader "111" ign ++
        "Issue: Discord is linked to UUID `" ++ "bbb" ++
        "`, not `" ++ ign ++ "`"), false) ∧
    parseLinkStep "111" "aaa" acc (some e) = acc := by
  refine ⟨rfl, rfl, ?_⟩
  rcases e with ⟨eid, euuid⟩
  rcases h with h | h
  · subst h; cases euuid <;> rfl
  · subst h; cases eid <;> rfl

/-- Claim C1, witness: the amended theorem applied at the concrete IGN
`Steve` and the concrete partial entry `(id aaa, uuid null)`. -/
theorem claim_C1_witness :
    ((⟨some "aaa", none⟩ : LinkEntry).id = none ∨
      (⟨some "aaa", none⟩ : LinkEntry).uuid = none) ∧
    (verify_discord_links (PyResult.success c1LinkDataTwo) "111" "Steve" "aaa" =
      (true, some (linkContradictionHeader "111" "Steve" ++
        "Issue: IGN `" ++ "Steve" ++ "` is linked to Discord ID `" ++ "222" ++
        "`, not the provided Discord account"), false) ∧
    verify_discord_links (PyResult.success c1LinkDataOne) "111" "Steve" "aaa" =
      (true, some (linkContradictionHeader "111" "Steve" ++
        "Issue: Discord is linked to UUID `" ++ "bbb" ++
        "`, not `" ++ "Steve" ++ "`"), false) ∧
    parseLinkStep "111" "aaa" (none, none) (some ⟨some "aaa", none⟩) = (none, none)) :=
  ⟨Or.inr rfl,
    claim_C1_theorem "Steve" ⟨some "aaa", none⟩ (none, none) (Or.inr rfl)⟩

/-! ## Verification cache (`utils/verification_cache.py`) -/

/-- One verified-user record as stored in `verified_users`
(`add_verified_user`, lines 177-192).  Fields that the source reads with
`dict.get` and that may be absent or `None` (for example in pre-migration
data) are `Option`s; timestamps are naturals. -/
structure UserData where
  discord_id : Option String
  discord_username : Option String
  ign : Option String
  player_uuid : Option String
  nation : Option String
  nation_uuid : Option String
  town : Option String
  town_uuid : Option String
  is_mayor : Bool
  county : Option String
  guild_id : Option String
  verified_by : Option String
  verified_at : Nat
  last_updated : Nat
  last_verified_by : Option String
  last_verified_at : Option Nat
deriving Repr, DecidableEq

/-- The `**updates` keyword arguments of `update_user_data`: for each
updatable field, `none` means the keyword was not passed and `some v` means
it was passed with value `v` (which may itself be `None`). -/
structure UserUpdates where
  discord_id : Option (Option String)
  discord_username : Option (Option String)
  ign : Option (Option String)
  nation : Option (Option String)
  nation_uuid : Option (Option String)
  town : Option (Option String)
  town_uuid : Option (Option String)
  is_mayor : Option Bool
  county : Option (Option String)
  guild_id : Option (Option String)
  verified_by : Option (Option String)
  last_verified_by : Option (Option String)
  last_verified_at : Option (Option Nat)
deriving Repr, DecidableEq

/-- The empty keyword-argument set. -/
def UserUpdates.nothing : UserUpdates :=
  ⟨none, none, none, none, none, none, none, none, none, none, none, none, none⟩

/-- Python `updates.get(key)`: `None` both when the keyword is absent and
when it was explicitly passed as `None`. -/
def kwGet {α : Type} (u : Option (Option α)) : Option α :=
  u.getD none

/-- Model of `self.cache["verified_users"][player_uuid].update(updates)`
(line 244): every field named in the keyword arguments is overwritten, the
rest keep their old values. -/
def applyUpdates (u : UserUpdates) (d : UserData) : UserData :=
  { d with
    discord_id := u.discord_id.getD d.discord_id
    discord_username := u.discord_username.getD d.discord_username
    ign := u.ign.getD d.ign
    nation := u.nation.getD d.nation
    nation_uuid := u.nation_uuid.getD d.nation_uuid
    town := u.town.getD d.town
    town_uuid := u.town_uuid.getD d.town_uuid
    is_mayor := u.is_mayor.getD d.is_mayor
    county := u.county.getD d.county
    guild_id := u.guild_id.getD d.guild_id
    verified_by := u.verified_by.getD d.verified_by
    last_verified_by := u.last_verified_by.getD d.last_verified_by
    last_verified_at := u.last_verified_at.getD d.last_verified_at }

/-- The `metadata` sub-dict of the cache store.  Each field is optional
because pre-migration stores may lack any of them; a store with no
`metadata` key at all is modelled by the all-`none` metadata (for the code
paths modelled here the two are indistinguishable: they are only read
through `dict.get` and `dict.update`). -/
structure CacheMetadata where
  created : Option Nat
  last_updated : Option Nat
  version : Option String
  migrated_at : Option Nat
deriving Repr, DecidableEq

/-- The in-memory verification cache store: the primary record table keyed
by player UUID, the three secondary index tables, and the metadata.
`discord_to_uuid` is keyed by an optional string because the source inserts
`self.cache["discord_to_uuid"][discord_id] = player_uuid` without a
null-check on `discord_id`; `uuid_to_discord` likewise stores the possibly
null Discord ID as its value. -/
structure VCache where
  verified_users : List (String × UserData)
  uuid_to_discord : List (String × Option String)
  discord_to_uuid : List (Option String × String)
  ign_to_uuid : List (String × String)
  metadata : CacheMetadata
deriving Repr, DecidableEq

/-- Model of `_create_empty_cache` (lines 48-60), with `now` standing for
`time.time()`. -/
def createEmptyCache (now : Nat) : VCache :=
  { verified_users := []
    uuid_to_discord := []
    discord_to_uuid := []
    ign_to_uuid := []
    metadata := { created := some now, last_updated := some now,
                  version := some "2.0", migrated_at := none } }

/-- Model of `_save_cache` restricted to its in-memory effect (line 113):
stamp `metadata["last_updated"]`.  The disk write and the backup copy are
outside the model; the source performs all cache mutations before calling
`_save_cache`, so the state transitions below are those of the source
whether or not the write succeeds. -/
def saveCache (now : Nat) (c : VCache) : VCache :=
  { c with metadata := { c.metadata with last_updated := some now } }

/-- Model of `_update_mappings` (lines 132-142): bind the UUID and Discord
ID in both direction tables unconditionally, and bind the lowercased IGN
only when the IGN is truthy. -/
def updateMappings (player_uuid : String) (discord_id : Option String)
    (ign : Option String) (c : VCache) : VCache :=
  let c1 := { c with uuid_to_discord := insertD c.uuid_to_discord player_uuid discord_id }
  let c2 := { c1 with discord_to_uuid := insertD c1.discord_to_uuid discord_id player_uuid }
  if truthyS ign then
    { c2 with ign_to_uuid := insertD c2.ign_to_uuid (pyLower (strVal ign)) player_uuid }
  else c2

/-- Model of `_remove_mappings` (lines 144-164): look the record up, and when
it exists delete its UUID binding, its (truthy) Discord ID binding and its
(truthy) lowercased IGN binding.  The source guards each deletion with a
membership check; `eraseD` of an absent key is the identity, so the guard is
implicit. -/
def removeMappings (player_uuid : String) (c : VCache) : VCache :=
  match lookupD c.verified_users player_uuid with
  | none => c
  | some ud =>
      let c1 := { c with uuid_to_discord := eraseD c.uuid_to_discord player_uuid }
      let c2 :=
        if truthyS ud.discord_id then
          { c1 with discord_to_uuid := eraseD c1.discord_to_uuid ud.discord_id }
        else c1
      if truthyS ud.ign then
        { c2 with ign_to_uuid := eraseD c2.ign_to_uuid (pyLower (strVal ud.ign)) }
      else c2

/-- Model of `add_verified_user` (lines 166-209): refuse a falsy UUID, build
the record, store it under the UUID, update the mapping tables, persist. -/
def add_verified_user (now : Nat) (discord_id discord_username ign player_uuid nation town : String)
    (is_mayor : Bool) (county guild_id verified_by town_uuid nation_uuid : Option String)
    (c : VCache) : VCache × Bool :=
  if player_uuid = "" then (c, false)
  else
    let vd : UserData :=
      { discord_id := some discord_id
        discord_username := some discord_username
        ign := some ign
        player_uuid := some player_uuid
        nation := some nation
        nation_uuid := nation_uuid
        town := some town
        town_uuid := town_uuid
        is_mayor := is_mayor
        county := county
        guild_id := guild_id
        verified_by := verified_by
        verified_at := now
        last_updated := now
        last_verified_by := none
        last_verified_at := none }
    let c1 := { c with verified_users := insertD c.verified_users player_uuid vd }
    let c2 := updateMappings player_uuid (some discord_id) (some ign) c1
    (saveCache now c2, true)

/-- Model of `get_verified_user_by_uuid` (lines 211-213). -/
def get_verified_user_by_uuid (c : VCache) (player_uuid : String) : Option UserData :=
  lookupD c.verified_users player_uuid

/-- Model of `get_verified_user_by_discord_id` (lines 215-221): resolve the
Discord ID through the index, then look the record up by UUID. -/
def get_verified_user_by_discord_id (c : VCache) (discord_id : String) : Option UserData :=
  let player_uuid := lookupD c.discord_to_uuid (some discord_id)
  if truthyS player_uuid then get_verified_user_by_uuid c (strVal player_uuid)
  else none

/-- Model of `update_user_data` (lines 239-264): merge the keyword arguments
into the existing record, refresh its `last_updated` stamp, and when a
truthy new Discord ID or IGN was passed, re-run `_update_mappings` with the
new-or-old Discord ID and IGN. -/
def update_user_data (now : Nat) (player_uuid : String) (u : UserUpdates)
    (c : VCache) : VCache × Bool :=
  match lookupD c.verified_users player_uuid with
  | none => (c, false)
  | some old_data =>
      let merged := { applyUpdates u old_data with last_updated := now }
      let c1 := { c with verified_users := insertD c.verified_users player_uuid merged }
      let new_discord_id := kwGet u.discord_id
      let new_ign := kwGet u.ign
      let c2 :=
        if truthyS new_discord_id || truthyS new_ign then
          updateMappings player_uuid (pyOr new_discord_id old_data.discord_id)
            (pyOr new_ign old_data.ign) c1
        else c1
      (saveCache now c2, true)

/-- Model of `remove_verified_user_by_uuid` (lines 275-295): when the record
exists, remove its mapping-table bindings, then the record itself. -/
def remove_verified_user_by_uuid (now : Nat) (player_uuid : String)
    (c : VCache) : VCache × Bool :=
  match lookupD c.verified_users player_uuid with
  | none => (c, false)
  | some _ =>
      let c1 := removeMappings player_uuid c
      let c2 := { c1 with verified_users := eraseD c1.verified_users player_uuid }
      (saveCache now c2, true)

/-- Model of `remove_verified_user` (lines 297-304): resolve the Discord ID
through the index and remove by UUID. -/
def remove_verified_user (now : Nat) (discord_id : String) (c : VCache) : VCache × Bool :=
  let player_uuid := lookupD c.discord_to_uuid (some discord_id)
  if truthyS player_uuid then remove_verified_user_by_uuid now (strVal player_uuid) c
  else (c, false)

/-! ## Cache format migration (`utils/verification_cache.py` lines 62-107) -/

/-- Python `str.isdigit` restricted to ASCII as used by the migration
heuristic: true exactly on nonempty all-digit strings. -/
def pyIsdigit (s : String) : Bool :=
  s ≠ "" && s.toList.all Char.isDigit

/-- Model of `_needs_migration` (lines 62-75): when the record table is
nonempty and its first key is a truthy all-digit string, migration is
requested; otherwise migration is requested exactly when the metadata
version (default `1.0`) is not `2.0`. -/
def needs_migration (c : VCache) : Bool :=
  let version := c.metadata.version.getD "1.0"
  match c.verified_users with
  | [] => version ≠ "2.0"
  | (first_key, _) :: _ =>
      if first_key ≠ "" && pyIsdigit first_key then true
      else version ≠ "2.0"

/-- One iteration of the migration loop of `_migrate_cache_format` (lines
84-98): a record with a truthy `player_uuid` is re-keyed under that UUID and
its index bindings are synthesized (the old dict key is taken as the Discord
ID); a record without one is skipped. -/
def migrateUser (acc : VCache) (kv : String × UserData) : VCache :=
  let discord_id := kv.1
  let user_data := kv.2
  if truthyS user_data.player_uuid then
    let pu := strVal user_data.player_uuid
    let acc1 :=
      { acc with
        verified_users := insertD acc.verified_users pu user_data
        uuid_to_discord := insertD acc.uuid_to_discord pu (some discord_id)
        discord_to_uuid := insertD acc.discord_to_uuid (some discord_id) pu }
    if truthyS user_data.ign then
      { acc1 with ign_to_uuid := insertD acc1.ign_to_uuid (pyLower (strVal user_data.ign)) pu }
    else acc1
  else acc

/-- Field-by-field model of `new_cache["metadata"].update(old_cache["metadata"])`:
a field present in the old metadata overwrites the fresh one. -/
def orO {α : Type} (a b : Option α) : Option α :=
  match a with
  | some v => some v
  | none => b

/-- Model of `_migrate_cache_format` (lines 77-107): start from an empty
v2.0 store, fold the migration loop over the old record table, then merge
the old metadata over the fresh one and stamp `version` and `migrated_at`. -/
def migrate_cache_format (now : Nat) (old : VCache) : VCache :=
  let new_cache := createEmptyCache now
  let migrated := old.verified_users.foldl migrateUser new_cache
  let md := migrated.metadata
  let md1 : CacheMetadata :=
    { created := orO old.metadata.created md.created
      last_updated := orO old.metadata.last_updated md.last_updated
      version := some "2.0"
      migrated_at := some now }
  { migrated with metadata := md1 }

/-- Load-time migration step of `_load_cache` (lines 22-24): migrate exactly
when `_needs_migration` says so. -/
def loadMigrationStep (now : Nat) (c : VCache) : VCache :=
  if needs_migration c then migrate_cache_format now c else c

/-- Sample verified-user record used by the concrete cache scenarios. -/
def sampleUser : UserData :=
  { discord_id := some "d1"
    discord_username := some "User One"
    ign := some "Alice"
    player_uuid := some "u1"
    nation := some "Atlantis"
    nation_uuid := some "n1"
    town := some "Springfield"
    town_uuid := some "t1"
    is_mayor := false
    county := none
    guild_id := none
    verified_by := none
    verified_at := 100
    last_updated := 100
    last_verified_by := none
    last_verified_at := none }

/-- Cache after `add_verified_user` of player `u1` (Discord `d1`, IGN
`Alice`). -/
def c2Cache1 : VCache :=
  (add_verified_user 100 "d1" "User One" "Alice" "u1" "Atlantis" "Springfield"
    false none none none (some "t1") (some "n1") (createEmptyCache 0)).1

/-- Cache after additionally running `update_user_data("u1", ign="Bob")`. -/
def c2Cache2 : VCache :=
  (update_user_data 200 "u1" { UserUpdates.nothing with ign := some (some "Bob") } c2Cache1).1

/-- Cache after additionally running `remove_verified_user_by_uuid("u1")`. -/
def c2Cache3 : VCache :=
  (remove_verified_user_by_uuid 300 "u1" c2Cache2).1

/-- Claim C2, evaluation of the code at the failing operation sequence:
after `add(u1, discord d1, ign Alice)`, then `update_user_data(u1,
ign=Bob)`, then `remove_verified_user_by_uuid(u1)`, the index entry
`ign_to_uuid["alice"] = u1` is still present while the record `u1` is gone:
the entry dangles.  `update_user_data` inserts the new IGN binding without
deleting the old one, and `_remove_mappings` (whose docstring promises to
remove the user from all mapping tables) only deletes the binding of the
current IGN. -/
theorem claim_C2_theorem :
    lookupD c2Cache3.ign_to_uuid "alice" = some "u1" ∧
    lookupD c2Cache3.verified_users "u1" = none := by
  decide

/-- First record key of a cache store, tested by the migration heuristic
(`_needs_migration` lines 68-73). -/
def firstKeyDigit (c : VCache) : Bool :=
  match c.verified_users with
  | [] => false
  | (k, _) :: _ => k ≠ "" && pyIsdigit k

/-- Pre-migration store whose single record carries the all-digit player
UUID `999` under the Discord ID key `111`. -/
def c3OldDigits : VCache :=
  { verified_users := [("111", { sampleUser with player_uuid := some "999", ign := some "Nine" })]
    uuid_to_discord := []
    discord_to_uuid := []
    ign_to_uuid := []
    metadata := { created := some 10, last_updated := some 20,
                  version := none, migrated_at := none } }

/-- Claim C3, counterexample.  The claim asserts that `_needs_migration`
returns false on any cache produced by `_migrate_cache_format`.  Migrating
a store whose record has the all-digit player UUID `999` produces a v2.0
store whose first record key is `999`; the all-digit heuristic of
`_needs_migration` fires before the version check, so migration is
requested again on the migrated store. -/
theorem claim_C3_counterexample :
    needs_migration (migrate_cache_format 50 c3OldDigits) = true := by
  decide

/-- The migration loop never touches the metadata of the store it builds. -/
lemma migrateUser_metadata (acc : VCache) (kv : String × UserData) :
    (migrateUser acc kv).metadata = acc.metadata := by
  simp only [migrateUser]
  split
  · split <;> rfl
  · rfl

/-- Folding the migration loop leaves the metadata of the accumulator
unchanged. -/
lemma migrate_fold_metadata (l : List (String × UserData)) (acc : VCache) :
    (List.foldl migrateUser acc l).metadata = acc.metadata := by
  induction l generalizing acc with
  | nil => rfl
  | cons kv rest ih => rw [List.foldl_cons, ih, migrateUser_metadata]

/-- Claim C3, amended.  For every store produced by `_migrate_cache_format`
whose first record key is not a truthy all-digit string (every real
Minecraft UUID contains hyphens, so this covers every store keyed by real
UUIDs), the load-time migration step is a no-op: `_needs_migration` returns
false and `loadMigrationStep` returns the store unchanged (hence record
count, index sizes and version marker are unchanged).  Moreover migration
always stamps `version = "2.0"` and `migrated_at = now`, and preserves the
original `created` and `last_updated` metadata timestamps whenever the old
store has them (falling back to the migration time otherwise). -/
theorem claim_C3_theorem (old : VCache) (now t2 : Nat)
    (h : firstKeyDigit (migrate_cache_format now old) = false) :
    needs_migration (migrate_cache_format now old) = false ∧
    loadMigrationStep t2 (migrate_cache_format now old) = migrate_cache_format now old ∧
    (migrate_cache_format now old).metadata.version = some "2.0" ∧
    (migrate_cache_format now old).metadata.migrated_at = some now ∧
    (migrate_cache_format now old).metadata.created = orO old.metadata.created (some now) ∧
    (migrate_cache_format now old).metadata.last_updated = orO old.metadata.last_updated (some now) := by
  have hmd : (migrate_cache_format now old).metadata =
      { created := orO old.metadata.created (some now)
        last_updated := orO old.metadata.last_updated (some now)
        version := some "2.0"
        migrated_at := some now } := by
    simp only [migrate_cache_format, migrate_fold_metadata, createEmptyCache]
  have hnm : needs_migration (migrate_cache_format now old) = false := by
    rcases hu : (migrate_cache_format now old).verified_users with _ | ⟨⟨k, d⟩, rest⟩
    · simp [needs_migration, hu, hmd]
    · simp only [firstKeyDigit, hu] at h
      simp [needs_migration, hu, hmd, h]
      intro hk
      simpa [hk] using h
  refine ⟨hnm, ?_, ?_, ?_, ?_, ?_⟩
  · simp [loadMigrationStep, hnm]
  · rw [hmd]
  · rw [hmd]
  · rw [hmd]
  · rw [hmd]

/-- Pre-migration store whose single record carries the hyphenated player
UUID `u-9`. -/
def c3OldGood : VCache :=
  { c3OldDigits with
    verified_users := [("111", { sampleUser with player_uuid := some "u-9" })] }

/-- Claim C3, witness: the amended theorem applied to the concrete store
`c3OldGood` migrated at time 5 and re-loaded at time 6. -/
theorem claim_C3_witness :
    needs_migration (migrate_cache_format 5 c3OldGood) = false ∧
    loadMigrationStep 6 (migrate_cache_format 5 c3OldGood) = migrate_cache_format 5 c3OldGood ∧
    (migrate_cache_format 5 c3OldGood).metadata.version = some "2.0" ∧
    (migrate_cache_format 5 c3OldGood).metadata.migrated_at = some 5 ∧
    (migrate_cache_format 5 c3OldGood).metadata.created = orO c3OldGood.metadata.created (some 5) ∧
    (migrate_cache_format 5 c3OldGood).metadata.last_updated = orO c3OldGood.metadata.last_updated (some 5) :=
  claim_C3_theorem c3OldGood 5 6 (by decide)

/-! ## County assignment table (`county/system.py`) -/

/-- One county of a nation: its assigned town UUIDs and its Discord role. -/
structure CountyData where
  towns : List String
  role_id : Option Int
deriving Repr, DecidableEq

/-- The per-nation county configuration: the nation UUID stored alongside,
the county table, and the designated no-county role. -/
structure NationCounty where
  nation_uuid : Option String
  counties : List (String × CountyData)
  no_county_role_id : Option Int
deriving Repr, DecidableEq

/-- The `county_system` configuration value: a dict from nation name to the
per-nation county configuration. -/
abbrev CountySystem := List (String × NationCounty)

/-- The nation-by-UUID search loop shared by `get_county_for_town_uuid`,
`add_town_to_county_by_uuid`, `remove_town_from_county_by_uuid` and
`rename_county_by_uuid` (first entry whose stored `nation_uuid` equals the
requested one). -/
def findNationEntry (nation_uuid : String) : CountySystem → Option (String × NationCounty)
  | [] => none
  | (nm, nd) :: rest =>
      if nd.nation_uuid = some nation_uuid then some (nm, nd)
      else findNationEntry nation_uuid rest

/-- The county search loop (first county whose town list contains the town
UUID), shared by the resolvers and the removal loop. -/
def findCountyWithTown (town_uuid : String) :
    List (String × CountyData) → Option (String × CountyData)
  | [] => none
  | (cn, cd) :: rest =>
      if town_uuid ∈ cd.towns then some (cn, cd)
      else findCountyWithTown town_uuid rest

/-- Model of `get_county_for_town_uuid` (`county/system.py` lines 49-75):
`(None, None, True)` when no nation entry carries the UUID, the county name
and role with `True` when some county contains the town, and
`(None, no-county role, False)` when the nation has a county system but the
town is unassigned. -/
def get_county_for_town_uuid (cs : CountySystem) (nation_uuid town_uuid : String) :
    Option String × Option Int × Bool :=
  match findNationEntry nation_uuid cs with
  | none => (none, none, true)
  | some (_, nc) =>
      match findCountyWithTown town_uuid nc.counties with
      | some (cn, cd) => (some cn, cd.role_id, true)
      | none => (none, nc.no_county_role_id, false)

/-- Model of the name-keyed `get_county_for_town` (lines 77-96), used as a
fallback when no nation UUID is at hand. -/
def get_county_for_town (cs : CountySystem) (nation_name town_uuid : String) :
    Option String × Option Int × Bool :=
  match lookupD cs nation_name with
  | none => (none, none, true)
  | some nc =>
      match findCountyWithTown town_uuid nc.counties with
      | some (cn, cd) => (some cn, cd.role_id, true)
      | none => (none, nc.no_county_role_id, false)

/-- The removal loop of `add_town_to_county_by_uuid` (lines 143-148) and
`remove_town_from_county_by_uuid` (lines 205-210): delete the town from the
first county whose list contains it (`list.remove` deletes the first
occurrence) and stop. -/
def removeFromFirstCounty (t : String) :
    List (String × CountyData) → List (String × CountyData)
  | [] => []
  | (cn, cd) :: rest =>
      if t ∈ cd.towns then (cn, { cd with towns := cd.towns.erase t }) :: rest
      else (cn, cd) :: removeFromFirstCounty t rest

/-- In-place model of `nation_config["counties"][county]["towns"].append(t)`
(line 151): append the town to the list of the named county. -/
def appendToCounty (county t : String) :
    List (String × CountyData) → List (String × CountyData)
  | [] => []
  | (cn, cd) :: rest =>
      if cn = county then (cn, { cd with towns := cd.towns ++ [t] }) :: rest
      else (cn, cd) :: appendToCounty county t rest

/-- Model of `add_town_to_county_by_uuid` (lines 98-163).  The API-backed
`validate_town_nation` call is the environment triple `validationOk`
(whether the town belongs to the nation), `valMsg` (its error text) and
`valNationName` (the display name of the nation it reports).  When no
nation entry carries the UUID, a fresh empty entry is created under the
validated nation name, after which the county-existence check necessarily
fails. -/
def add_town_to_county_by_uuid (validationOk : Bool) (valMsg valNationName : String)
    (nation_uuid county town_uuid : String) (cs : CountySystem) :
    CountySystem × Bool × String :=
  if ¬ validationOk then
    (cs, false, "❌ **Nation Validation Failed**: " ++ valMsg)
  else
    let step :=
      match findNationEntry nation_uuid cs with
      | some (nk, nc) => (cs, nk, nc)
      | none =>
          let fresh : NationCounty :=
            { nation_uuid := some nation_uuid, counties := [], no_county_role_id := none }
          (insertD cs valNationName fresh, valNationName, fresh)
    let cs0 := step.1
    let nation_key := step.2.1
    let nation_config := step.2.2
    match lookupD nation_config.counties county with
    | none =>
        (cs0, false, "County `" ++ county ++ "` does not exist in nation `" ++
          valNationName ++ "`. Create it first.")
    | some cd =>
        if town_uuid ∈ cd.towns then
          (cs0, false, "Town is already in county `" ++ county ++ "`.")
        else
          let counties1 := removeFromFirstCounty town_uuid nation_config.counties
          let counties2 := appendToCounty county town_uuid counties1
          (insertD cs0 nation_key { nation_config with counties := counties2 }, true,
            "✅ Successfully added town to county `" ++ county ++ "` in nation `" ++
              valNationName ++ "`. Validated: Town belongs to " ++ valNationName ++ ".")

/-- Model of `remove_town_from_county_by_uuid` (lines 183-223); the last
component is the `removed_from_county` return value. -/
def remove_town_from_county_by_uuid (nation_uuid town_uuid : String)
    (cs : CountySystem) : CountySystem × Bool × String × Option String :=
  match findNationEntry nation_uuid cs with
  | none =>
      (cs, false, "Nation with UUID `" ++ nation_uuid ++
        "` does not have a county system configured.", none)
  | some (nk, nc) =>
      match findCountyWithTown town_uuid nc.counties with
      | none =>
          (cs, false, "Town is not currently assigned to any county in nation `" ++
            nk ++ "`.", none)
      | some (rc, _) =>
          (insertD cs nk { nc with counties := removeFromFirstCounty town_uuid nc.counties },
            true,
            "Successfully removed town from county `" ++ rc ++ "` in nation `" ++ nk ++ "`.",
            some rc)

/-- Model of `rename_county_by_uuid` (lines 259-308); the last component is
the reported town count of the renamed county.  The rename itself is the
dict assignment `counties[new] = data` (append, since the collision check
guarantees the new name is fresh) followed by `del counties[old]`. -/
def rename_county_by_uuid (nation_uuid old_county_name new_county_name : String)
    (cs : CountySystem) : CountySystem × Bool × String × Nat :=
  match findNationEntry nation_uuid cs with
  | none =>
      (cs, false, "Nation with UUID `" ++ nation_uuid ++
        "` does not have a county system configured.", 0)
  | some (nk, nc) =>
      match lookupD nc.counties old_county_name with
      | none =>
          (cs, false, "County `" ++ old_county_name ++ "` does not exist in nation `" ++
            nk ++ "`.", 0)
      | some county_data =>
          if (lookupD nc.counties new_county_name).isSome then
            (cs, false, "County `" ++ new_county_name ++ "` already exists in nation `" ++
              nk ++ "`.", 0)
          else
            let counties1 :=
              eraseD (insertD nc.counties new_county_name county_data) old_county_name
            (insertD cs nk { nc with counties := counties1 }, true,
              "Successfully renamed county `" ++ old_county_name ++ "` to `" ++
                new_county_name ++ "` in nation `" ++ nk ++ "`.",
              county_data.towns.length)

/-- One administrative county operation, with the registry validation
outcome of an assignment supplied as part of the operation. -/
inductive CountyOp where
  | assign (validationOk : Bool) (valMsg valNationName nation_uuid county town_uuid : String)
  | unassign (nation_uuid town_uuid : String)
  | rename (nation_uuid old_county_name new_county_name : String)
deriving Repr, DecidableEq

/-- State transition of one county operation. -/
def applyCountyOp (cs : CountySystem) : CountyOp → CountySystem
  | .assign ok m n nu c t => (add_town_to_county_by_uuid ok m n nu c t cs).1
  | .unassign nu t => (remove_town_from_county_by_uuid nu t cs).1
  | .rename nu o n2 => (rename_county_by_uuid nu o n2 cs).1

/-- State after a sequence of county operations. -/
def applyCountyOps (cs : CountySystem) (ops : List CountyOp) : CountySystem :=
  ops.foldl applyCountyOp cs

/-- Total number of occurrences of a town UUID across the town lists of a
county table (multiplicity included). -/
def townOccL (l : List (String × CountyData)) (t : String) : Nat :=
  (l.map (fun p => p.2.towns.count t)).sum

/-- Total number of occurrences of a town UUID in a nation. -/
def townOcc (nc : NationCounty) (t : String) : Nat :=
  townOccL nc.counties t

/-- Number of counties of a nation whose town list contains the town. -/
def countiesWith (nc : NationCounty) (t : String) : Nat :=
  (nc.counties.filter (fun p => decide (t ∈ p.2.towns))).length

/-- All town occurrences of a nation, concatenated county by county. -/
def townsOfNation (nc : NationCounty) : List String :=
  (nc.counties.map (fun p => p.2.towns)).flatten

/-! ### Single-county invariant (claim C4) -/

lemma townOccL_cons (cn : String) (cd : CountyData) (rest : List (String × CountyData))
    (t : String) : townOccL ((cn, cd) :: rest) t = cd.towns.count t + townOccL rest t := by
  simp [townOccL]

lemma townOccL_append (a b : List (String × CountyData)) (t : String) :
    townOccL (a ++ b) t = townOccL a t + townOccL b t := by
  simp [townOccL]

lemma mem_insertD {κ β : Type} [DecidableEq κ] {l : List (κ × β)} {k : κ} {v : β}
    {p : κ × β} (h : p ∈ insertD l k v) : p ∈ l ∨ p = (k, v) := by
  induction l with
  | nil => simpa [insertD] using h
  | cons hd tl ih =>
      rcases hd with ⟨k1, v1⟩
      by_cases hk : k1 = k
      · simp only [insertD] at h
        rw [if_pos hk] at h
        rcases List.mem_cons.mp h with h1 | h1
        · right; rw [h1, hk]
        · left; exact List.mem_cons_of_mem _ h1
      · simp only [insertD] at h
        rw [if_neg hk] at h
        rcases List.mem_cons.mp h with h1 | h1
        · left; simp [h1]
        · rcases ih h1 with h2 | h2
          · left; exact List.mem_cons_of_mem _ h2
          · right; exact h2

lemma findNationEntry_mem {n : String} {cs : CountySystem} {nm : String} {nc : NationCounty}
    (h : findNationEntry n cs = some (nm, nc)) : (nm, nc) ∈ cs := by
  induction cs with
  | nil => simp [findNationEntry] at h
  | cons hd tl ih =>
      rcases hd with ⟨nm1, nc1⟩
      by_cases hu : nc1.nation_uuid = some n
      · simp only [findNationEntry, if_pos hu, Option.some_inj, Prod.mk.injEq] at h
        rcases h with ⟨h1, h2⟩
        subst h1; subst h2
        exact List.mem_cons_self _ _
      · simp only [findNationEntry, if_neg hu] at h
        exact List.mem_cons_of_mem _ (ih h)

lemma townOccL_removeFromFirstCounty_le (t u : String) (l : List (String × CountyData)) :
    townOccL (removeFromFirstCounty t l) u ≤ townOccL l u := by
  induction l with
  | nil => simp [removeFromFirstCounty]
  | cons hd tl ih =>
      rcases hd with ⟨cn, cd⟩
      by_cases hm : t ∈ cd.towns
      · simp only [removeFromFirstCounty, if_pos hm, townOccL_cons]
        have herase : (cd.towns.erase t).count u ≤ cd.towns.count u := by
          by_cases hut : u = t
          · subst hut; rw [List.count_erase_self]; omega
          · rw [List.count_erase_of_ne hut]
        omega
      · simp only [removeFromFirstCounty, if_neg hm, townOccL_cons]
        omega

lemma townOccL_removeFromFirstCounty_self (t : String) (l : List (String × CountyData))
    (h : townOccL l t ≤ 1) : townOccL (removeFromFirstCounty t l) t = 0 := by
  induction l with
  | nil => simp [removeFromFirstCounty, townOccL]
  | cons hd tl ih =>
      rcases hd with ⟨cn, cd⟩
      rw [townOccL_cons] at h
      by_cases hm : t ∈ cd.towns
      · have h1 : 1 ≤ cd.towns.count t := List.one_le_count_iff.mpr hm
        simp only [removeFromFirstCounty, if_pos hm, townOccL_cons, List.count_erase_self]
        omega
      · have h0 : cd.towns.count t = 0 := List.count_eq_zero.mpr hm
        simp only [removeFromFirstCounty, if_neg hm, townOccL_cons, h0]
        rw [ih (by omega)]

lemma townOccL_appendToCounty_self (c t : String) (l : List (String × CountyData)) :
    townOccL (appendToCounty c t l) t ≤ townOccL l t + 1 := by
  induction l with
  | nil => simp [appendToCounty, townOccL]
  | cons hd tl ih =>
      rcases hd with ⟨cn, cd⟩
      by_cases hc : cn = c
      · simp only [appendToCounty, if_pos hc, townOccL_cons, List.count_append]
        have h1 : List.count t [t] = 1 := by simp
        omega
      · simp only [appendToCounty, if_neg hc, townOccL_cons]
        omega

lemma townOccL_appendToCounty_ne (c t u : String) (hne : u ≠ t)
    (l : List (String × CountyData)) :
    townOccL (appendToCounty c t l) u = townOccL l u := by
  have hsing : List.count u [t] = 0 :=
    List.count_eq_zero.mpr (fun hmem => hne (List.mem_singleton.mp hmem))
  induction l with
  | nil => simp [appendToCounty]
  | cons hd tl ih =>
      rcases hd with ⟨cn, cd⟩
      by_cases hc : cn = c
      · simp only [appendToCounty, if_pos hc, townOccL_cons, List.count_append, hsing]
        omega
      · simp only [appendToCounty, if_neg hc, townOccL_cons, ih]

lemma insertD_of_lookup_none {κ β : Type} [DecidableEq κ] {l : List (κ × β)} {k : κ}
    (v : β) (h : lookupD l k = none) : insertD l k v = l ++ [(k, v)] := by
  induction l with
  | nil => rfl
  | cons hd tl ih =>
      rcases hd with ⟨k1, v1⟩
      by_cases hk : k1 = k
      · simp [lookupD, hk] at h
      · simp only [lookupD, if_neg hk] at h
        simp only [insertD, if_neg hk, List.cons_append, ih h]

lemma eraseD_append_left {κ β : Type} [DecidableEq κ] {l : List (κ × β)} {k : κ} {v : β}
    (m : List (κ × β)) (h : lookupD l k = some v) :
    eraseD (l ++ m) k = eraseD l k ++ m := by
  induction l with
  | nil => simp [lookupD] at h
  | cons hd tl ih =>
      rcases hd with ⟨k1, v1⟩
      by_cases hk : k1 = k
      · simp only [List.cons_append, eraseD, if_pos hk]
        rfl
      · simp only [lookupD, if_neg hk] at h
        simp only [List.cons_append, eraseD, if_neg hk]
        exact congrArg (fun x => (k1, v1) :: x) (ih h)

lemma townOccL_eraseD {l : List (String × CountyData)} {k : String} {cd : CountyData}
    (h : lookupD l k = some cd) (u : String) :
    townOccL (eraseD l k) u + cd.towns.count u = townOccL l u := by
  induction l with
  | nil => simp [lookupD] at h
  | cons hd tl ih =>
      rcases hd with ⟨k1, v1⟩
      by_cases hk : k1 = k
      · simp only [lookupD, if_pos hk, Option.some_inj] at h
        subst h
        simp only [eraseD, if_pos hk, townOccL_cons]
        omega
      · simp only [lookupD, if_neg hk] at h
        simp only [eraseD, if_neg hk, townOccL_cons]
        have := ih h
        omega

lemma countiesWithL_le (l : List (String × CountyData)) (t : String) :
    (l.filter (fun p => decide (t ∈ p.2.towns))).length ≤ townOccL l t := by
  induction l with
  | nil => simp [townOccL]
  | cons hd tl ih =>
      rcases hd with ⟨cn, cd⟩
      rw [townOccL_cons]
      by_cases hm : t ∈ cd.towns
      · have h1 : 1 ≤ cd.towns.count t := List.one_le_count_iff.mpr hm
        rw [List.filter_cons_of_pos (by simpa using hm), List.length_cons]
        omega
      · have h0 : cd.towns.count t = 0 := List.count_eq_zero.mpr hm
        rw [List.filter_cons_of_neg (by simpa using hm)]
        omega

lemma townOcc_eq_count_townsOfNation (nc : NationCounty) (t : String) :
    townOcc nc t = (townsOfNation nc).count t := by
  simp only [townOcc, townsOfNation, townOccL, List.count_flatten, List.map_map]
  rfl

/-- Transition of `add_town_to_county_by_uuid` preserves the at-most-once
occurrence bound on every nation. -/
lemma assign_preserves_occ (ok : Bool) (m nname nu county town : String) (cs : CountySystem)
    (h : ∀ p ∈ cs, ∀ t, townOcc p.2 t ≤ 1) :
    ∀ p ∈ (add_town_to_county_by_uuid ok m nname nu county town cs).1, ∀ t,
      townOcc p.2 t ≤ 1 := by
  intro p hp t
  unfold add_town_to_county_by_uuid at hp
  by_cases hok : ¬ (ok = true)
  · rw [if_pos hok] at hp
    exact h p hp t
  · rw [if_neg hok] at hp
    rcases hfind : findNationEntry nu cs with _ | ⟨nk, nc⟩
    · simp only [hfind] at hp
      rcases hlook : lookupD
          (NationCounty.counties
            { nation_uuid := some nu, counties := [], no_county_role_id := none }) county with
          _ | cd
      · simp only [hlook] at hp
        rcases mem_insertD hp with hold | hnew
        · exact h p hold t
        · subst hnew
          simp [townOcc, townOccL]
      · simp [lookupD] at hlook
    · simp only [hfind] at hp
      rcases hlook : lookupD nc.counties county with _ | cd
      · simp only [hlook] at hp
        exact h p hp t
      · simp only [hlook] at hp
        by_cases htm : town ∈ cd.towns
        · rw [if_pos htm] at hp
          exact h p hp t
        · rw [if_neg htm] at hp
          rcases mem_insertD hp with hold | hnew
          · exact h p hold t
          · subst hnew
            have hnc : ∀ u, townOccL nc.counties u ≤ 1 :=
              fun u => h (nk, nc) (findNationEntry_mem hfind) u
            show townOccL (appendToCounty county town (removeFromFirstCounty town nc.counties)) t ≤ 1
            by_cases hut : t = town
            · subst hut
              have h0 := townOccL_removeFromFirstCounty_self t nc.counties (hnc t)
              have h1 := townOccL_appendToCounty_self county t
                (removeFromFirstCounty t nc.counties)
              omega
            · rw [townOccL_appendToCounty_ne county town t hut]
              have h1 := townOccL_removeFromFirstCounty_le town t nc.counties
              have h2 := hnc t
              omega

/-- Transition of `remove_town_from_county_by_uuid` preserves the
at-most-once occurrence bound on every nation. -/
lemma unassign_preserves_occ (nu town : String) (cs : CountySystem)
    (h : ∀ p ∈ cs, ∀ t, townOcc p.2 t ≤ 1) :
    ∀ p ∈ (remove_town_from_county_by_uuid nu town cs).1, ∀ t,
      townOcc p.2 t ≤ 1 := by
  intro p hp t
  unfold remove_town_from_county_by_uuid at hp
  rcases hfind : findNationEntry nu cs with _ | ⟨nk, nc⟩
  · simp only [hfind] at hp
    exact h p hp t
  · simp only [hfind] at hp
    rcases hct : findCountyWithTown town nc.counties with _ | ⟨rc, rcd⟩
    · simp only [hct] at hp
      exact h p hp t
    · simp only [hct] at hp
      rcases mem_insertD hp with hold | hnew
      · exact h p hold t
      · subst hnew
        have hnc : ∀ u, townOccL nc.counties u ≤ 1 :=
          fun u => h (nk, nc) (findNationEntry_mem hfind) u
        show townOccL (removeFromFirstCounty town nc.counties) t ≤ 1
        have h1 := townOccL_removeFromFirstCounty_le town t nc.counties
        have h2 := hnc t
        omega

/-- Transition of `rename_county_by_uuid` preserves the at-most-once
occurrence bound on every nation (the renamed county keeps its town list,
appended under the fresh name and erased under the old). -/
lemma rename_preserves_occ (nu oldN newN : String) (cs : CountySystem)
    (h : ∀ p ∈ cs, ∀ t, townOcc p.2 t ≤ 1) :
    ∀ p ∈ (rename_county_by_uuid nu oldN newN cs).1, ∀ t,
      townOcc p.2 t ≤ 1 := by
  intro p hp t
  unfold rename_county_by_uuid at hp
  rcases hfind : findNationEntry nu cs with _ | ⟨nk, nc⟩
  · simp only [hfind] at hp
    exact h p hp t
  · simp only [hfind] at hp
    rcases hold : lookupD nc.counties oldN with _ | cd
    · simp only [hold] at hp
      exact h p hp t
    · simp only [hold] at hp
      by_cases hnew : (lookupD nc.counties newN).isSome
      · rw [if_pos hnew] at hp
        exact h p hp t
      · rw [if_neg hnew] at hp
        rcases mem_insertD hp with holdm | hnewm
        · exact h p holdm t
        · subst hnewm
          have hnone : lookupD nc.counties newN = none := by
            rcases hv : lookupD nc.counties newN with _ | v
            · rfl
            · rw [hv] at hnew; simp at hnew
          have hnc : ∀ u, townOccL nc.counties u ≤ 1 :=
            fun u => h (nk, nc) (findNationEntry_mem hfind) u
          show townOccL (eraseD (insertD nc.counties newN cd) oldN) t ≤ 1
          rw [insertD_of_lookup_none cd hnone, eraseD_append_left [(newN, cd)] hold,
            townOccL_append]
          have he := townOccL_eraseD hold t
          have h2 := hnc t
          have hsing : townOccL [(newN, cd)] t = cd.towns.count t := by
            simp [townOccL]
          omega

/-- Every single county operation preserves the at-most-once occurrence
bound on every nation. -/
lemma applyCountyOp_preserves_occ (cs : CountySystem) (op : CountyOp)
    (h : ∀ p ∈ cs, ∀ t, townOcc p.2 t ≤ 1) :
    ∀ p ∈ applyCountyOp cs op, ∀ t, townOcc p.2 t ≤ 1 := by
  cases op with
  | assign ok m nname nu county town => exact assign_preserves_occ ok m nname nu county town cs h
  | unassign nu town => exact unassign_preserves_occ nu town cs h
  | rename nu o n2 => exact rename_preserves_occ nu o n2 cs h

/-- Any sequence of county operations preserves the at-most-once occurrence
bound on every nation. -/
lemma applyCountyOps_preserves_occ (ops : List CountyOp) (cs : CountySystem)
    (h : ∀ p ∈ cs, ∀ t, townOcc p.2 t ≤ 1) :
    ∀ p ∈ applyCountyOps cs ops, ∀ t, townOcc p.2 t ≤ 1 := by
  induction ops generalizing cs with
  | nil => exact h
  | cons op rest ih => exact ih (applyCountyOp cs op) (applyCountyOp_preserves_occ cs op h)

/-- County table of the C4 counterexample: town `t` is listed twice in
county `A` of nation `N` and county `B` is empty. -/
def c4Nation0 : NationCounty :=
  { nation_uuid := some "nu"
    counties := [("A", { towns := ["t", "t"], role_id := none }),
                 ("B", { towns := [], role_id := none })]
    no_county_role_id := none }

/-- The C4 counterexample county system before the operation. -/
def c4Sys0 : CountySystem := [("N", c4Nation0)]

/-- The C4 counterexample county system after assigning town `t` to county
`B` (with the registry validation passing). -/
def c4Sys1 : CountySystem :=
  applyCountyOps c4Sys0 [CountyOp.assign true "" "N" "nu" "B" "t"]

/-- Claim C4, counterexample.  Before the operation, town `t` appears in
exactly one county of nation `N` (county `A`, twice).  A single assignment
of `t` to county `B` removes only the first of the two occurrences in `A`
(`list.remove` deletes one occurrence) and appends `t` to `B`, after which
`t` appears in two counties of `N` — refuting the claim for initial tables
that satisfy its stated at-most-one-county hypothesis. -/
theorem claim_C4_counterexample :
    countiesWith c4Nation0 "t" = 1 ∧
    (lookupD c4Sys1 "N").map (fun nc => countiesWith nc "t") = some 2 := by
  decide

/-- Claim C4, amended.  Strengthen the hypothesis from "T appears in at most
one county of N" to "T occurs at most once across all county town lists of
N" (equivalently: the concatenation of the town lists of each nation has no
duplicates).  Then after any sequence of assign/unassign/rename operations,
every town still occurs at most once in every nation, and in particular
appears in at most one county of every nation; assign maintains this by
removing the town from its old county before appending it to the new one
within the same call. -/
theorem claim_C4_theorem (cs : CountySystem) (ops : List CountyOp) (nm : String)
    (nc : NationCounty) (t : String)
    (h : ∀ p ∈ cs, (townsOfNation p.2).Nodup)
    (hmem : (nm, nc) ∈ applyCountyOps cs ops) :
    townOcc nc t ≤ 1 ∧ countiesWith nc t ≤ 1 := by
  have hocc : ∀ p ∈ cs, ∀ u, townOcc p.2 u ≤ 1 := by
    intro p hp u
    rw [townOcc_eq_count_townsOfNation]
    exact List.nodup_iff_count_le_one.mp (h p hp) u
  have h1 := applyCountyOps_preserves_occ ops cs hocc (nm, nc) hmem t
  exact ⟨h1, le_trans (countiesWithL_le nc.counties t) h1⟩

/-- County table for the C4 witness: town `t` occurs exactly once. -/
def c4SysW : CountySystem :=
  [("N", { nation_uuid := some "nu"
           counties := [("A", { towns := ["t"], role_id := none }),
                        ("B", { towns := [], role_id := none })]
           no_county_role_id := none })]

/-- Claim C4, witness: the amended theorem applied to the concrete
duplicate-free table `c4SysW` and the single assignment of `t` to county
`B`. -/
theorem claim_C4_witness :
    townOcc { nation_uuid := some "nu"
              counties := [("A", { towns := [], role_id := none }),
                           ("B", { towns := ["t"], role_id := none })]
              no_county_role_id := none } "t" ≤ 1 ∧
    countiesWith { nation_uuid := some "nu"
                   counties := [("A", { towns := [], role_id := none }),
                                ("B", { towns := ["t"], role_id := none })]
                   no_county_role_id := none } "t" ≤ 1 :=
  claim_C4_theorem c4SysW [CountyOp.assign true "" "N" "nu" "B" "t"] "N" _ "t"
    (by decide) (by decide)

/-! ### County resolution trichotomy (claim C7) -/

/-- The county search loop fails exactly when no county town list contains
the town. -/
lemma findCountyWithTown_eq_none_iff (t : String) (l : List (String × CountyData)) :
    findCountyWithTown t l = none ↔ ∀ p ∈ l, t ∉ p.2.towns := by
  induction l with
  | nil => simp [findCountyWithTown]
  | cons hd tl ih =>
      rcases hd with ⟨cn, cd⟩
      by_cases hm : t ∈ cd.towns
      · simp [findCountyWithTown, hm]
      · simp [findCountyWithTown, hm, ih]

/-- Claim C7: resolution trichotomy of `get_county_for_town_uuid`.  The
result is `(countyName = null, roleId = null, hasCounty = true)` exactly
when no nation entry of the county system carries the requested nation UUID
(the nation has no county system configured); when the nation is configured
and no county town list contains the town UUID, the result is
`(null, the designated no-county role, false)`; and when the (first) county
containing the town UUID is found, the result is that county name, its role
id, and `hasCounty = true`. -/
theorem claim_C7_theorem (cs : CountySystem) (nuuid tuuid : String) :
    (get_county_for_town_uuid cs nuuid tuuid = (none, none, true) ↔
      findNationEntry nuuid cs = none) ∧
    (∀ nm nc, findNationEntry nuuid cs = some (nm, nc) →
      ((∀ p ∈ nc.counties, tuuid ∉ p.2.towns) →
        get_county_for_town_uuid cs nuuid tuuid = (none, nc.no_county_role_id, false)) ∧
      (∀ cn cd, findCountyWithTown tuuid nc.counties = some (cn, cd) →
        get_county_for_town_uuid cs nuuid tuuid = (some cn, cd.role_id, true))) := by
  constructor
  · constructor
    · intro h
      rcases hf : findNationEntry nuuid cs with _ | ⟨nm, nc⟩
      · rfl
      · exfalso
        simp only [get_county_for_town_uuid, hf] at h
        rcases hc : findCountyWithTown tuuid nc.counties with _ | ⟨cn, cd⟩
        · rw [hc] at h; simp at h
        · rw [hc] at h; simp at h
    · intro h
      simp [get_county_for_town_uuid, h]
  · intro nm nc hf
    constructor
    · intro hall
      have hc : findCountyWithTown tuuid nc.counties = none :=
        (findCountyWithTown_eq_none_iff _ _).mpr hall
      simp [get_county_for_town_uuid, hf, hc]
    · intro cn cd hc
      simp [get_county_for_town_uuid, hf, hc]

/-- Nation configuration of the C7 witness: one county `A` with role 5
holding town `t1`, and no-county role 9. -/
def c7Nation : NationCounty :=
  { nation_uuid := some "nu"
    counties := [("A", { towns := ["t1"], role_id := some 5 })]
    no_county_role_id := some 9 }

/-- County system of the C7 witness. -/
def c7Sys : CountySystem := [("N", c7Nation)]

/-- Claim C7, witness: the trichotomy applied to the concrete system `c7Sys`
for the unassigned town `t2` (configured nation, town in no county: the
no-county role 9 is returned with `hasCounty = false`). -/
theorem claim_C7_witness :
    get_county_for_town_uuid c7Sys "nu" "t2" = (none, some 9, false) :=
  ((claim_C7_theorem c7Sys "nu" "t2").2 "N" c7Nation (by decide)).1 (by decide)

/-! ## Batched town lookup (`api/earthmc.py`) -/

/-- Nested nation reference inside a town or player record. -/
structure NationRef where
  name : Option String
  uuid : Option String
deriving Repr, DecidableEq

/-- One town record of the towns endpoint (the fields of the request
template that the modelled code reads; the coordinate payload is carried by
the record but never inspected by `get_multiple_towns_info`, so it is
omitted). -/
structure TownData where
  name : Option String
  uuid : Option String
  nation : Option NationRef
deriving Repr, DecidableEq

/-- Outcome of one batched POST to the towns endpoint: a 200 response with
its JSON array (entries may be null), a non-200 status, or a raised
exception with its message. -/
inductive BatchResponse where
  | ok (data : List (Option TownData))
  | httpError (status : Nat)
  | exc (msg : String)
deriving Repr, DecidableEq

/-- The `MAX_ENTITIES_PER_REQUEST` constant (`api/earthmc.py` line 11). -/
def MAX_ENTITIES_PER_REQUEST : Nat := 100

/-- Chunking loop with explicit fuel (structural recursion so that concrete
instances evaluate): take one slice of `n` elements and recurse on the
remainder.  Each step strictly shortens a nonempty list, so fuel equal to
the list length never runs out. -/
def chunkGo {α : Type} (fuel : Nat) (lst : List α) (n : Nat) : List (List α) :=
  match fuel with
  | 0 => []
  | fuel + 1 =>
      if n = 0 then []
      else if lst.isEmpty then []
      else lst.take n :: chunkGo fuel (lst.drop n) n

/-- Model of `chunk_list` (`api/earthmc.py` lines 47-49):
`[lst[i:i+n] for i in range(0, len(lst), n)]`.  The only call site passes
`n = 100`; a zero chunk size (for which Python `range` would raise) returns
the empty partition here and is excluded by hypothesis in every theorem. -/
def chunk_list {α : Type} (lst : List α) (chunk_size : Nat) : List (List α) :=
  chunkGo lst.length lst chunk_size

/-- The read-through cache scan of `get_multiple_towns_info` (lines 59-75):
queries whose combined cache probe (`town_uuid:` key or lowercased
`town_name:` key, modelled by `cacheGet`) holds a success result are
answered from the cache under the cached record name; the rest stay
uncached in order. -/
def townsCacheScan (cacheGet : String → Option (PyResult TownData))
    (queries : List String) :
    List (String × PyResult TownData) × List String :=
  queries.foldl
    (fun acc query =>
      match cacheGet query with
      | some (PyResult.success td) =>
          (insertD acc.1 (td.name.getD query) (PyResult.success td), acc.2)
      | _ => (acc.1, acc.2 ++ [query]))
    ([], [])

/-- Processing of one batch of `get_multiple_towns_info` (lines 84-147): on
a 200 response, every non-null entry with a truthy `uuid` is stored under
its returned name (defaulting to `Unknown_<index>`); on a non-200 status or
an exception, every query of the batch is stored as a failure carrying the
error.  The TTL cache writes have no effect on the returned dict (all cache
reads happen before the first batch) and are not modelled. -/
def processTownBatch (resp : BatchResponse) (batch : List String)
    (results : List (String × PyResult TownData)) :
    List (String × PyResult TownData) :=
  match resp with
  | .ok data =>
      data.enum.foldl
        (fun r jtd =>
          match jtd.2 with
          | some td =>
              if truthyS td.uuid then
                insertD r (td.name.getD ("Unknown_" ++ toString jtd.1)) (PyResult.success td)
              else r
          | none => r)
        results
  | .httpError status =>
      batch.foldl
        (fun r q => insertD r q (PyResult.failure ("API returned status " ++ toString status)))
        results
  | .exc msg =>
      batch.foldl (fun r q => insertD r q (PyResult.failure msg)) results

/-- Model of `get_multiple_towns_info` (lines 51-154).  The POST of batch
`i` is the environment value `env i`; the rate limiter and inter-batch
delays have no effect on the returned dict. -/
def get_multiple_towns_info (env : Nat → BatchResponse)
    (cacheGet : String → Option (PyResult TownData)) (use_cache : Bool)
    (town_queries : List String) : List (String × PyResult TownData) :=
  let scan := if use_cache then townsCacheScan cacheGet town_queries else ([], town_queries)
  let results := scan.1
  let uncached_queries := scan.2
  if uncached_queries = [] then results
  else
    let batches := chunk_list uncached_queries MAX_ENTITIES_PER_REQUEST
    batches.enum.foldl (fun r ib => processTownBatch (env ib.1) ib.2 r) results

/-- The list of dict writes one batch performs, in order: the valid records
under their names for a 200 response, the per-query failures otherwise. -/
def batchWrites (resp : BatchResponse) (batch : List String) :
    List (String × PyResult TownData) :=
  match resp with
  | .ok data =>
      data.enum.filterMap (fun jtd =>
        match jtd.2 with
        | some td =>
            if truthyS td.uuid then
              some (td.name.getD ("Unknown_" ++ toString jtd.1), PyResult.success td)
            else none
        | none => none)
  | .httpError status =>
      batch.map (fun q => (q, PyResult.failure ("API returned status " ++ toString status)))
  | .exc msg => batch.map (fun q => (q, PyResult.failure msg))

/-- All dict writes of a multi-chunk lookup, batch by batch. -/
def allTownWrites (env : Nat → BatchResponse) (queries : List String) :
    List (String × PyResult TownData) :=
  ((chunk_list queries MAX_ENTITIES_PER_REQUEST).enum.map
    (fun ib => batchWrites (env ib.1) ib.2)).flatten

/-! ### Batch partition independence (claim C5) -/

lemma chunkGo_flatten {α : Type} (n : Nat) (hn : 0 < n) :
    ∀ (fuel : Nat) (l : List α), l.length ≤ fuel → (chunkGo fuel l n).flatten = l := by
  intro fuel
  induction fuel with
  | zero =>
      intro l hl
      have he : l = [] := List.length_eq_zero.mp (Nat.le_zero.mp hl)
      subst he
      rfl
  | succ f ih =>
      intro l hl
      rw [chunkGo]
      rw [if_neg (Nat.pos_iff_ne_zero.mp hn)]
      by_cases he : l.isEmpty
      · rw [if_pos he]
        cases l with
        | nil => rfl
        | cons a t => simp at he
      · rw [if_neg he]
        have h3 : 0 < l.length := by
          cases l with
          | nil => simp at he
          | cons a t => simp
        rw [List.flatten_cons, ih (l.drop n) (by rw [List.length_drop]; omega)]
        exact List.take_append_drop n l

lemma chunk_list_flatten {α : Type} (n : Nat) (hn : 0 < n) (lst : List α) :
    (chunk_list lst n).flatten = lst :=
  chunkGo_flatten n hn lst.length lst le_rfl

lemma chunkGo_sizes {α : Type} (n : Nat) (hn : 0 < n) :
    ∀ (fuel : Nat) (l : List α), l.length ≤ fuel →
      ∀ c ∈ chunkGo fuel l n, c.length ≤ n := by
  intro fuel
  induction fuel with
  | zero =>
      intro l hl c hc
      simp [chunkGo] at hc
  | succ f ih =>
      intro l hl c hc
      rw [chunkGo, if_neg (Nat.pos_iff_ne_zero.mp hn)] at hc
      by_cases he : l.isEmpty
      · rw [if_pos he] at hc
        simp at hc
      · rw [if_neg he] at hc
        have h3 : 0 < l.length := by
          cases l with
          | nil => simp at he
          | cons a t => simp
        rcases List.mem_cons.mp hc with h1 | h1
        · subst h1
          rw [List.length_take]
          omega
        · exact ih (l.drop n) (by rw [List.length_drop]; omega) c h1

lemma chunk_list_sizes {α : Type} (n : Nat) (hn : 0 < n) (lst : List α) :
    ∀ c ∈ chunk_list lst n, c.length ≤ n :=
  chunkGo_sizes n hn lst.length lst le_rfl

lemma lookupD_insertD_self {κ β : Type} [DecidableEq κ] (l : List (κ × β)) (k : κ) (v : β) :
    lookupD (insertD l k v) k = some v := by
  induction l with
  | nil => simp [insertD, lookupD]
  | cons hd tl ih =>
      rcases hd with ⟨k1, v1⟩
      by_cases hk : k1 = k
      · simp [insertD, lookupD, hk]
      · simp [insertD, lookupD, hk, ih]

lemma lookupD_insertD_ne {κ β : Type} [DecidableEq κ] (l : List (κ × β)) (k k2 : κ) (v : β)
    (h : k2 ≠ k) : lookupD (insertD l k2 v) k = lookupD l k := by
  induction l with
  | nil => simp [insertD, lookupD, h]
  | cons hd tl ih =>
      rcases hd with ⟨k1, v1⟩
      by_cases hk : k1 = k2
      · subst hk
        simp [insertD, lookupD, h]
      · simp only [insertD, if_neg hk]
        by_cases hk2 : k1 = k
        · simp [lookupD, hk2]
        · simp [lookupD, hk2, ih]

lemma lookupD_foldl_insert_not_mem {κ β : Type} [DecidableEq κ]
    (writes : List (κ × β)) (init : List (κ × β)) (k : κ)
    (h : k ∉ writes.map Prod.fst) :
    lookupD (writes.foldl (fun r kv => insertD r kv.1 kv.2) init) k = lookupD init k := by
  induction writes generalizing init with
  | nil => rfl
  | cons kv rest ih =>
      simp only [List.map_cons, List.mem_cons] at h
      push_neg at h
      simp only [List.foldl_cons]
      rw [ih _ h.2, lookupD_insertD_ne _ _ _ _ (Ne.symm h.1)]

lemma lookupD_foldl_insert_of_mem {κ β : Type} [DecidableEq κ]
    (writes : List (κ × β)) (init : List (κ × β)) (k : κ) (v : β)
    (hmem : (k, v) ∈ writes) (hnd : (writes.map Prod.fst).Nodup) :
    lookupD (writes.foldl (fun r kv => insertD r kv.1 kv.2) init) k = some v := by
  induction writes generalizing init with
  | nil => cases hmem
  | cons kv rest ih =>
      simp only [List.map_cons, List.nodup_cons] at hnd
      rcases List.mem_cons.mp hmem with he | hm
      · have hk : kv.1 = k := by rw [← he]
        have hnotin : k ∉ rest.map Prod.fst := by
          rw [← hk]; exact hnd.1
        simp only [List.foldl_cons]
        rw [lookupD_foldl_insert_not_mem rest _ k hnotin, ← he,
          lookupD_insertD_self]
      · simp only [List.foldl_cons]
        exact ih _ hm hnd.2

/-- Processing one batch equals folding the dict-write list of that batch. -/
lemma processTownBatch_eq_writes (resp : BatchResponse) (batch : List String)
    (results : List (String × PyResult TownData)) :
    processTownBatch resp batch results =
      (batchWrites resp batch).foldl (fun r kv => insertD r kv.1 kv.2) results := by
  cases resp with
  | ok data =>
      simp only [processTownBatch, batchWrites]
      generalize data.enum = l
      induction l generalizing results with
      | nil => rfl
      | cons x xs ih =>
          rcases x with ⟨j, td⟩
          cases td with
          | none => simp only [List.filterMap_cons, List.foldl_cons]; exact ih results
          | some td =>
              by_cases hu : truthyS td.uuid
              · simp only [List.filterMap_cons, List.foldl_cons, hu, if_pos]
                exact ih _
              · simp only [List.filterMap_cons, List.foldl_cons, hu, if_neg,
                  Bool.false_eq_true]
                exact ih results
  | httpError status =>
      simp only [processTownBatch, batchWrites]
      induction batch generalizing results with
      | nil => rfl
      | cons q qs ih => simp only [List.map_cons, List.foldl_cons]; exact ih _
  | exc msg =>
      simp only [processTownBatch, batchWrites]
      induction batch generalizing results with
      | nil => rfl
      | cons q qs ih => simp only [List.map_cons, List.foldl_cons]; exact ih _

/-- Folding the batch loop equals folding all dict writes in order. -/
lemma batches_foldl_eq_writes (env : Nat → BatchResponse)
    (l : List (Nat × List String)) (results : List (String × PyResult TownData)) :
    l.foldl (fun r ib => processTownBatch (env ib.1) ib.2 r) results =
      ((l.map (fun ib => batchWrites (env ib.1) ib.2)).flatten).foldl
        (fun r kv => insertD r kv.1 kv.2) results := by
  induction l generalizing results with
  | nil => rfl
  | cons ib rest ih =>
      simp only [List.foldl_cons, List.map_cons, List.flatten_cons, List.foldl_append]
      rw [processTownBatch_eq_writes, ih]

/-- The returned dict of a cache-bypassing multi-chunk lookup is the fold of
all its dict writes. -/
lemma get_multiple_towns_info_eq_writes (env : Nat → BatchResponse)
    (cacheGet : String → Option (PyResult TownData)) (queries : List String)
    (hne : queries ≠ []) :
    get_multiple_towns_info env cacheGet false queries =
      (allTownWrites env queries).foldl (fun r kv => insertD r kv.1 kv.2) [] := by
  simp only [get_multiple_towns_info, if_neg, Bool.false_eq_true, if_false, hne,
    allTownWrites]
  exact batches_foldl_eq_writes env _ []

/-- Response town record of the C5 counterexample: a town named `q`. -/
def c5Town : TownData := { name := some "q", uuid := some "u-0", nation := none }

/-- The 101 queries of the C5 scenarios: 100 UUID-shaped identifiers and the
name `q`, so the lookup is split into two chunks of 100 and 1. -/
def c5Queries : List String :=
  (List.range 100).map (fun i => "u" ++ toString i) ++ ["q"]

/-- Environment of the C5 counterexample: chunk 0 succeeds and returns the
single town named `q` (resolved for one of the UUID queries), chunk 1 (the
query `q` itself) fails with HTTP 500. -/
def c5Env : Nat → BatchResponse :=
  fun i => if i = 0 then .ok [some c5Town] else .httpError 500

/-- Claim C5, counterexample.  The claim asserts that when one chunk K of a
multi-chunk lookup fails, successful records from the other chunks are
still returned.  Batch 0 succeeds and stores the record of the town named
`q` (first conjunct: its write list is exactly that record); the later
failing batch 1 then overwrites the same dict key with its per-query
failure, because successes are keyed by returned town name while failures
are keyed by query string.  The success from the non-failing chunk is
gone from the final result. -/
theorem claim_C5_counterexample :
    batchWrites (c5Env 0) [] = [("q", PyResult.success c5Town)] ∧
    lookupD (get_multiple_towns_info c5Env (fun _ => none) false c5Queries) "q" =
      some (PyResult.failure "API returned status 500") := by
  exact ⟨by decide, by decide⟩

/-- The error text a wholly failed batch attaches to every one of its
queries: `API returned status <code>` for a non-2xx response (line 136),
`str(e)` for a raised exception (line 146); a 200 response fails no
query. -/
def batchFailureMsg : BatchResponse → Option String
  | .httpError status => some ("API returned status " ++ toString status)
  | .exc msg => some msg
  | .ok _ => none

/-- Claim C5, amended.  Restrict to runs in which the written dict keys are
pairwise distinct (no query of a failing chunk coincides with a town name
returned by another chunk, no duplicate failing queries, no repeated
returned names) — successes are keyed by returned town name and failures by
query string, so key collisions can overwrite entries across chunks.  Then,
when chunk K fails — with a non-2xx status or with an exception, `err`
being the corresponding error text: every identifier of chunk K maps to a
failure carrying `err`; every valid record of every successful chunk is
still returned under its name; and the chunks concatenate to the original
query list with every chunk of size at most 100. -/
theorem claim_C5_theorem (env : Nat → BatchResponse)
    (cacheGet : String → Option (PyResult TownData))
    (queries : List String) (K : Nat) (batchK : List String) (err : String)
    (hbK : (chunk_list queries MAX_ENTITIES_PER_REQUEST)[K]? = some batchK)
    (henv : batchFailureMsg (env K) = some err)
    (hnd : ((allTownWrites env queries).map Prod.fst).Nodup) :
    (∀ q ∈ batchK,
      lookupD (get_multiple_towns_info env cacheGet false queries) q =
        some (PyResult.failure err)) ∧
    (∀ j batchJ data,
      (chunk_list queries MAX_ENTITIES_PER_REQUEST)[j]? = some batchJ →
      env j = .ok data →
      ∀ jtd ∈ data.enum, ∀ td, jtd.2 = some td → truthyS td.uuid = true →
        lookupD (get_multiple_towns_info env cacheGet false queries)
            (td.name.getD ("Unknown_" ++ toString jtd.1)) =
          some (PyResult.success td)) ∧
    (chunk_list queries MAX_ENTITIES_PER_REQUEST).flatten = queries ∧
    (∀ c ∈ chunk_list queries MAX_ENTITIES_PER_REQUEST,
      c.length ≤ MAX_ENTITIES_PER_REQUEST) := by
  have hmaxpos : 0 < MAX_ENTITIES_PER_REQUEST := by decide
  have hne : queries ≠ [] := by
    intro he
    subst he
    simp [chunk_list, chunkGo] at hbK
  have hres := get_multiple_towns_info_eq_writes env cacheGet queries hne
  refine ⟨?_, ?_, chunk_list_flatten _ hmaxpos queries, chunk_list_sizes _ hmaxpos queries⟩
  · intro q hq
    have hwmem : (q, PyResult.failure err) ∈ allTownWrites env queries := by
      apply List.mem_flatten.mpr
      refine ⟨batchWrites (env K) batchK,
        List.mem_map.mpr ⟨(K, batchK), List.mk_mem_enum_iff_getElem?.mpr hbK, rfl⟩, ?_⟩
      rcases henvK : env K with data | status | msg
      · rw [henvK] at henv
        simp [batchFailureMsg] at henv
      · rw [henvK] at henv
        simp only [batchFailureMsg, Option.some_inj] at henv
        subst henv
        exact List.mem_map.mpr ⟨q, hq, rfl⟩
      · rw [henvK] at henv
        simp only [batchFailureMsg, Option.some_inj] at henv
        subst henv
        exact List.mem_map.mpr ⟨q, hq, rfl⟩
    rw [hres]
    exact lookupD_foldl_insert_of_mem _ _ _ _ hwmem hnd
  · intro j batchJ data hbJ henvJ jtd hjtd td htd hu
    have hwmem : (td.name.getD ("Unknown_" ++ toString jtd.1), PyResult.success td) ∈
        allTownWrites env queries := by
      apply List.mem_flatten.mpr
      refine ⟨batchWrites (env j) batchJ,
        List.mem_map.mpr ⟨(j, batchJ), List.mk_mem_enum_iff_getElem?.mpr hbJ, rfl⟩, ?_⟩
      rw [henvJ]
      apply List.mem_filterMap.mpr
      refine ⟨jtd, hjtd, ?_⟩
      rw [htd]
      simp [hu]
    rw [hres]
    exact lookupD_foldl_insert_of_mem _ _ _ _ hwmem hnd

/-- Response town record of the C5 witness: a town named `t` (distinct from
every query string, so no key collision). -/
def c5TownW : TownData := { name := some "t", uuid := some "u-0", nation := none }

/-- Environment of the C5 witness: chunk 0 succeeds with the town named `t`,
chunk 1 fails with HTTP 500. -/
def c5EnvW : Nat → BatchResponse :=
  fun i => if i = 0 then .ok [some c5TownW] else .httpError 500

/-- Second environment of the C5 witness: chunk 0 succeeds with the town
named `t`, chunk 1 raises an exception. -/
def c5EnvX : Nat → BatchResponse :=
  fun i => if i = 0 then .ok [some c5TownW] else .exc "Connection timed out"

/-- Claim C5, witness: the amended theorem applied to the concrete
two-chunk runs `c5EnvW` (failing chunk K = 1 via non-2xx status) and
`c5EnvX` (failing chunk K = 1 via exception) over `c5Queries`. -/
theorem claim_C5_witness :
    lookupD (get_multiple_towns_info c5EnvW (fun _ => none) false c5Queries) "q" =
      some (PyResult.failure ("API returned status " ++ toString 500)) ∧
    lookupD (get_multiple_towns_info c5EnvW (fun _ => none) false c5Queries) "t" =
      some (PyResult.success c5TownW) ∧
    lookupD (get_multiple_towns_info c5EnvX (fun _ => none) false c5Queries) "q" =
      some (PyResult.failure "Connection timed out") ∧
    lookupD (get_multiple_towns_info c5EnvX (fun _ => none) false c5Queries) "t" =
      some (PyResult.success c5TownW) ∧
    (chunk_list c5Queries MAX_ENTITIES_PER_REQUEST).flatten = c5Queries := by
  have h := claim_C5_theorem c5EnvW (fun _ => none) c5Queries 1 ["q"]
    ("API returned status " ++ toString 500) (by decide) rfl (by decide)
  have hx := claim_C5_theorem c5EnvX (fun _ => none) c5Queries 1 ["q"]
    "Connection timed out" (by decide) rfl (by decide)
  exact ⟨h.1 "q" (by decide),
    h.2.1 0 ((List.range 100).map (fun i => "u" ++ toString i)) [some c5TownW]
      (by decide) rfl (0, some c5TownW) (by decide) c5TownW rfl rfl,
    hx.1 "q" (by decide),
    hx.2.1 0 ((List.range 100).map (fun i => "u" ++ toString i)) [some c5TownW]
      (by decide) rfl (0, some c5TownW) (by decide) c5TownW rfl rfl,
    h.2.2.1⟩

/-! ## Periodic reconciliation scheduler (`verification/periodic.py`) -/

/-- The `self.stats` dictionary of `PeriodicVerificationManager` (lines
31-38).  Durations are measured by `time.time()` differences; they are
modelled as exact rationals. -/
structure RunStats where
  total_runs : Nat
  last_run_duration : ℚ
  last_run_users : Nat
  last_run_updates : Nat
  last_run_failures : Nat
  average_processing_time : ℚ
deriving Repr, DecidableEq

/-- The statistics as initialised by `__init__` (lines 31-38). -/
def initialRunStats : RunStats :=
  { total_runs := 0, last_run_duration := 0, last_run_users := 0,
    last_run_updates := 0, last_run_failures := 0, average_processing_time := 0 }

/-- The end-of-run statistics update of `run_verification_update` (lines
136-151): bump the run counter, record the last-run figures, and update the
running average — seeded with the duration on the first run, and by the
incremental rule `(avg * (n - 1) + duration) / n` afterwards. -/
def updateRunStats (st : RunStats) (duration : ℚ) (processed updated failed : Nat) :
    RunStats :=
  let st1 := { st with
    total_runs := st.total_runs + 1
    last_run_duration := duration
    last_run_users := processed
    last_run_updates := updated
    last_run_failures := failed }
  if st1.total_runs = 1 then
    { st1 with average_processing_time := duration }
  else
    { st1 with average_processing_time :=
        (st1.average_processing_time * ((st1.total_runs : ℚ) - 1) + duration) /
          (st1.total_runs : ℚ) }

/-- Statistics after a sequence of completed runs, each contributing its
duration and its processed/updated/failed counts, starting from the
freshly initialised statistics. -/
def statsAfterRuns (runs : List (ℚ × Nat × Nat × Nat)) : RunStats :=
  runs.foldl (fun st r => updateRunStats st r.1 r.2.1 r.2.2.1 r.2.2.2) initialRunStats

lemma updateRunStats_total (st : RunStats) (d : ℚ) (p u f : Nat) :
    (updateRunStats st d p u f).total_runs = st.total_runs + 1 := by
  simp only [updateRunStats]
  split <;> rfl

lemma updateRunStats_avg_mul (st : RunStats) (d : ℚ) (p u f : Nat) :
    (updateRunStats st d p u f).average_processing_time * ((st.total_runs : ℚ) + 1) =
      st.average_processing_time * (st.total_runs : ℚ) + d := by
  simp only [updateRunStats]
  by_cases hz : st.total_runs + 1 = 1
  · have h0 : st.total_runs = 0 := by omega
    simp [hz, h0]
  · simp only [if_neg hz]
    have hne : ((st.total_runs : ℚ) + 1) ≠ 0 := by positivity
    push_cast
    field_simp

lemma statsAfterRuns_spec (runs : List (ℚ × Nat × Nat × Nat)) :
    (statsAfterRuns runs).total_runs = runs.length ∧
    (statsAfterRuns runs).average_processing_time * (runs.length : ℚ) =
      (runs.map (fun r => r.1)).sum := by
  induction runs using List.reverseRecOn with
  | nil => simp [statsAfterRuns, initialRunStats]
  | append_singleton rs r ih =>
      obtain ⟨h1, h2⟩ := ih
      have heq : statsAfterRuns (rs ++ [r]) =
          updateRunStats (statsAfterRuns rs) r.1 r.2.1 r.2.2.1 r.2.2.2 := by
        simp [statsAfterRuns, List.foldl_append]
      constructor
      · rw [heq, updateRunStats_total, h1]
        simp
      · rw [heq]
        have hm := updateRunStats_avg_mul (statsAfterRuns rs) r.1 r.2.1 r.2.2.1 r.2.2.2
        rw [h1] at hm
        simp only [List.length_append, List.map_append, List.sum_append, List.map_cons,
          List.map_nil, List.sum_cons, List.sum_nil, List.length_cons, List.length_nil]
        push_cast
        linear_combination hm + h2

/-- Claim C8: rolling-average correctness.  After any nonempty sequence of
completed runs, the stored run counter equals the number of runs and the
stored average processing time equals the arithmetic mean of the run
durations (treating durations as exact numbers): the first run seeds the
average and every later run applies `avg = (avg * (n - 1) + duration) / n`
after incrementing `n`. -/
theorem claim_C8_theorem (runs : List (ℚ × Nat × Nat × Nat)) (hne : runs ≠ []) :
    (statsAfterRuns runs).total_runs = runs.length ∧
    (statsAfterRuns runs).average_processing_time =
      (runs.map (fun r => r.1)).sum / (runs.length : ℚ) := by
  obtain ⟨h1, h2⟩ := statsAfterRuns_spec runs
  refine ⟨h1, ?_⟩
  have hpos : 0 < runs.length := List.length_pos.mpr hne
  have hlen : (runs.length : ℚ) ≠ 0 := by positivity
  field_simp
  linarith [h2]

/-- Claim C8, witness: two completed runs of durations 2 and 4 end with run
counter 2 and stored average 3. -/
theorem claim_C8_witness :
    (statsAfterRuns [((2 : ℚ), 1, 1, 0), ((4 : ℚ), 1, 0, 1)]).total_runs = 2 ∧
    (statsAfterRuns [((2 : ℚ), 1, 1, 0), ((4 : ℚ), 1, 0, 1)]).average_processing_time = 3 := by
  have h := claim_C8_theorem [((2 : ℚ), 1, 1, 0), ((4 : ℚ), 1, 0, 1)]
    (List.cons_ne_nil _ _)
  refine ⟨h.1, ?_⟩
  rw [h.2]
  norm_num

/-- The mutable run state of `PeriodicVerificationManager` (lines 19-38):
the `is_running` flag, the live progress counters, the last-run timestamp
(seconds), and the rolling statistics. -/
structure SchedState where
  is_running : Bool
  current_batch : Nat
  total_users : Nat
  processed_users : Nat
  failed_users : Nat
  updated_users : Nat
  last_run_time : Option Nat
  stats : RunStats
deriving Repr, DecidableEq

/-- The entry prologue of `run_verification_update` (lines 87-92): set
`is_running` and reset the progress counters. -/
def runEntry (s : SchedState) : SchedState :=
  { s with
    is_running := true
    current_batch := 0
    processed_users := 0
    failed_users := 0
    updated_users := 0 }

/-- Model of `run_verification_update` (lines 85-164).  `tryBlock` abstracts
the entire `try` body (lines 94-160) together with its `except` handler
(lines 161-162): whatever the body does — complete normally, return early on
an empty cache, or raise and be logged — it turns the post-prologue state
into some state, over which the theorems quantify universally.  The
`finally` clause (lines 163-164) always clears `is_running`. -/
def run_verification_update (tryBlock : SchedState → SchedState) (s : SchedState) :
    SchedState :=
  let s2 := tryBlock (runEntry s)
  { s2 with is_running := false }

/-- Model of one tick of `periodic_verification_loop` (lines 58-83), with
the configuration values and the clock as parameters: skip when the
configured interval has not elapsed since the last run, when periodic
verification is disabled, or when a run is already in progress; otherwise
run a full update (the hourly task loop awaits the body, so within one tick
the run completes). -/
def intervalNotElapsed (interval_hours now : Nat) (last_run_time : Option Nat) : Bool :=
  match last_run_time with
  | some lrt => decide (now - lrt < interval_hours * 3600)
  | none => false

def periodic_verification_loop_tick (enabled : Bool) (interval_hours now : Nat)
    (tryBlock : SchedState → SchedState) (s : SchedState) : SchedState :=
  if intervalNotElapsed interval_hours now s.last_run_time then s
  else if enabled = false then s
  else if s.is_running then s
  else run_verification_update tryBlock s

/-- Claim C9: scheduler mutual exclusion.  A timer tick that arrives while
`is_running` is true, or while periodic verification is disabled, or before
the configured interval has elapsed since the last run, starts no new run
and leaves the whole state unchanged; `run_verification_update` hands its
body a state with `is_running = true` and always ends — for every behaviour
of its body, including the exceptional ones — with `is_running = false`. -/
theorem claim_C9_theorem (enabled : Bool) (interval_hours now lrt : Nat)
    (tryBlock : SchedState → SchedState) (s : SchedState) :
    (s.is_running = true →
      periodic_verification_loop_tick enabled interval_hours now tryBlock s = s) ∧
    (enabled = false →
      periodic_verification_loop_tick enabled interval_hours now tryBlock s = s) ∧
    (s.last_run_time = some lrt → now - lrt < interval_hours * 3600 →
      periodic_verification_loop_tick enabled interval_hours now tryBlock s = s) ∧
    (run_verification_update tryBlock s).is_running = false ∧
    (runEntry s).is_running = true := by
  refine ⟨?_, ?_, ?_, rfl, rfl⟩
  · intro hr
    by_cases h1 : intervalNotElapsed interval_hours now s.last_run_time
    · simp [periodic_verification_loop_tick, h1]
    · by_cases h2 : enabled = false
      · simp [periodic_verification_loop_tick, h1, h2]
      · simp [periodic_verification_loop_tick, h1, h2, hr]
  · intro h2
    by_cases h1 : intervalNotElapsed interval_hours now s.last_run_time
    · simp [periodic_verification_loop_tick, h1]
    · simp [periodic_verification_loop_tick, h1, h2]
  · intro hl hint
    have h1 : intervalNotElapsed interval_hours now s.last_run_time = true := by
      simp only [intervalNotElapsed, hl]
      simpa using hint
    simp [periodic_verification_loop_tick, h1]

/-- Concrete scheduler state of the C9 witness: a run in progress. -/
def c9State : SchedState :=
  { is_running := true, current_batch := 3, total_users := 10, processed_users := 5,
    failed_users := 1, updated_users := 2, last_run_time := some 1000,
    stats := initialRunStats }

/-- Claim C9, witness: with a run in progress (and the interval long
elapsed, verification enabled), the tick is a no-op; and a run over any body
(here the identity) ends not running, having started running. -/
theorem claim_C9_witness :
    periodic_verification_loop_tick true 24 999999 id c9State = c9State ∧
    (run_verification_update id c9State).is_running = false ∧
    (runEntry c9State).is_running = true :=
  ⟨(claim_C9_theorem true 24 999999 0 id c9State).1 rfl,
   (claim_C9_theorem true 24 999999 0 id c9State).2.2.2.1,
   (claim_C9_theorem true 24 999999 0 id c9State).2.2.2.2⟩

/-! ## Per-identity reconciliation (`verification/periodic.py` lines 166-321)

`update_single_user` is written at module scope in the source (its `def` at
line 166 is dedented out of the class body, which also makes line 276 an
indentation error), but its text, its `self` parameter and its callers make
the intent unambiguous; it is modelled here as the manager method it is
evidently meant to be. -/

/-- Nested town reference inside a player record. -/
structure TownRef where
  name : Option String
  uuid : Option String
deriving Repr, DecidableEq

/-- The `status` sub-dict of a player record (read with
`status_data.get("isMayor", False)`). -/
structure PlayerStatus where
  isMayor : Option Bool
deriving Repr, DecidableEq

/-- One player record of the players endpoint, with the fields of the
request template; any of them may be absent. -/
structure PlayerData where
  name : Option String
  uuid : Option String
  town : Option TownRef
  nation : Option NationRef
  status : Option PlayerStatus
deriving Repr, DecidableEq

/-- The `isMayor` read of lines 198/211: `player_data.get("status", {})`
then `.get("isMayor", False)`. -/
def pdIsMayor (pd : PlayerData) : Bool :=
  match pd.status with
  | some st => st.isMayor.getD false
  | none => false

/-- Python `x in approved_nations` for a possibly null nation name (the
approved list holds strings, so `None` is never a member). -/
def optMemStr (o : Option String) (l : List String) : Bool :=
  match o with
  | some s => decide (s ∈ l)
  | none => false

/-- Environment of one per-identity reconciliation step: the two registry
lookups (by UUID, and the by-IGN fallback), the approved-nation list, and
the county configuration. -/
structure ReconcileEnv where
  byUuid : PyResult PlayerData
  byName : PyResult PlayerData
  approved_nations : List String
  countySystem : CountySystem
deriving Repr, DecidableEq

/-- The fetch with fallback of lines 185-192: the by-UUID result when it
succeeded, otherwise the by-IGN result. -/
def effectiveFetch (env : ReconcileEnv) : PyResult PlayerData :=
  match env.byUuid with
  | PyResult.success pd => PyResult.success pd
  | PyResult.failure _ => env.byName

/-- Cache effect of `handle_nation_departure` (lines 302-321): remove the
record through the Discord-ID index (`remove_verified_user(discord_id)`);
the role revocation that follows touches only Discord-side state. -/
def handle_nation_departure_cache (now : Nat) (discord_id : String) (c : VCache) : VCache :=
  (remove_verified_user now discord_id c).1

/-- Cache effect of `update_single_user` (lines 166-274), with its Boolean
return value.  Discord-side role and relationship updates (lines 243, 264)
have no cache effect and are not modelled. -/
def update_single_user_cache (now : Nat) (env : ReconcileEnv) (player_uuid : String)
    (user_data : UserData) (c : VCache) : VCache × Bool :=
  if truthyS user_data.discord_id = false ∨ truthyS user_data.ign = false then (c, false)
  else
    match effectiveFetch env with
    | PyResult.failure _ => (c, false)
    | PyResult.success player_data =>
        let current_ign := player_data.name.getD (strVal user_data.ign)
        match player_data.nation with
        | none => (handle_nation_departure_cache now (strVal user_data.discord_id) c, true)
        | some nation_data =>
            let current_nation := nation_data.name
            let current_nation_uuid := nation_data.uuid
            let current_town := match player_data.town with
              | some td => td.name
              | none => none
            let current_town_uuid := match player_data.town with
              | some td => td.uuid
              | none => none
            let current_is_mayor := pdIsMayor player_data
            if optMemStr current_nation env.approved_nations = false then
              (handle_nation_departure_cache now (strVal user_data.discord_id) c, true)
            else
              let countyRes :=
                if truthyS current_nation_uuid ∧ truthyS current_town_uuid then
                  get_county_for_town_uuid env.countySystem (strVal current_nation_uuid)
                    (strVal current_town_uuid)
                else if truthyS current_nation ∧ truthyS current_town_uuid then
                  get_county_for_town env.countySystem (strVal current_nation)
                    (strVal current_town_uuid)
                else (none, none, true)
              let current_county := countyRes.1
              if (current_ign ≠ strVal user_data.ign) ∨
                  (current_nation_uuid ≠ user_data.nation_uuid) ∨
                  (current_town_uuid ≠ user_data.town_uuid) ∨
                  (current_county ≠ user_data.county) ∨
                  (current_is_mayor ≠ user_data.is_mayor) then
                ((update_user_data now player_uuid
                  { UserUpdates.nothing with
                    ign := some (some current_ign)
                    nation := some current_nation
                    nation_uuid := some current_nation_uuid
                    town := some current_town
                    town_uuid := some current_town_uuid
                    is_mayor := some current_is_mayor
                    county := some current_county
                    last_verified_by := some (some "periodic_system")
                    last_verified_at := some (some now) } c).1, true)
              else (c, false)

/-! ### Departure handling (claim C6) -/

lemma lookupD_eq_none_of_not_mem_keys {κ β : Type} [DecidableEq κ]
    (l : List (κ × β)) (k : κ) (h : k ∉ l.map Prod.fst) : lookupD l k = none := by
  induction l with
  | nil => rfl
  | cons hd tl ih =>
      rcases hd with ⟨k1, v1⟩
      simp only [List.map_cons, List.mem_cons] at h
      push_neg at h
      simp only [lookupD, if_neg (Ne.symm h.1)]
      exact ih h.2

lemma lookupD_eraseD_self {κ β : Type} [DecidableEq κ]
    (l : List (κ × β)) (k : κ) (hnd : (l.map Prod.fst).Nodup) :
    lookupD (eraseD l k) k = none := by
  induction l with
  | nil => rfl
  | cons hd tl ih =>
      rcases hd with ⟨k1, v1⟩
      simp only [List.map_cons, List.nodup_cons] at hnd
      by_cases hk : k1 = k
      · simp only [eraseD, if_pos hk]
        subst hk
        exact lookupD_eq_none_of_not_mem_keys tl k1 hnd.1
      · simp only [eraseD, if_neg hk, lookupD, if_neg hk]
        exact ih hnd.2

/-- Deleting the mapping-table bindings leaves the record table unchanged. -/
lemma removeMappings_verified_users (uuid : String) (c : VCache) :
    (removeMappings uuid c).verified_users = c.verified_users := by
  unfold removeMappings
  rcases lookupD c.verified_users uuid with _ | ud
  · rfl
  · dsimp only
    split <;> split <;> rfl

/-- With the record present and its Discord ID truthy, `_remove_mappings`
deletes exactly that Discord binding from the Discord index. -/
lemma removeMappings_discord_to_uuid (uuid d : String) (c : VCache) (ud : UserData)
    (h1 : lookupD c.verified_users uuid = some ud)
    (hdid : ud.discord_id = some d) (hdne : d ≠ "") :
    (removeMappings uuid c).discord_to_uuid = eraseD c.discord_to_uuid (some d) := by
  unfold removeMappings
  rw [h1]
  have htd : truthyS ud.discord_id = true := by
    rw [hdid]; simpa [truthyS] using hdne
  dsimp only
  rw [if_pos htd, hdid]
  split <;> rfl

/-- Cache effect of the departure path on a consistent cache: with the
Discord index resolving the Discord ID to the record's own UUID, the record
is removed and both subsequent lookups miss. -/
lemma departure_removes (now : Nat) (d uuid : String) (c : VCache) (ud : UserData)
    (h0 : uuid ≠ "") (h1 : lookupD c.verified_users uuid = some ud)
    (hdid : ud.discord_id = some d) (hdne : d ≠ "")
    (h6 : lookupD c.discord_to_uuid (some d) = some uuid)
    (hnd1 : (c.verified_users.map Prod.fst).Nodup)
    (hnd2 : (c.discord_to_uuid.map Prod.fst).Nodup) :
    get_verified_user_by_uuid (handle_nation_departure_cache now d c) uuid = none ∧
    get_verified_user_by_discord_id (handle_nation_departure_cache now d c) d = none := by
  have ht : truthyS (some uuid) = true := by simpa [truthyS] using h0
  have hres : handle_nation_departure_cache now d c =
      saveCache now
        { removeMappings uuid c with
          verified_users := eraseD (removeMappings uuid c).verified_users uuid } := by
    simp only [handle_nation_departure_cache, remove_verified_user, h6, if_pos ht, strVal]
    simp only [remove_verified_user_by_uuid, h1]
  constructor
  · rw [hres]
    show lookupD (eraseD (removeMappings uuid c).verified_users uuid) uuid = none
    rw [removeMappings_verified_users]
    exact lookupD_eraseD_self _ _ hnd1
  · rw [hres]
    show get_verified_user_by_discord_id _ d = none
    unfold get_verified_user_by_discord_id
    have hdu : lookupD
        (saveCache now
          { removeMappings uuid c with
            verified_users := eraseD (removeMappings uuid c).verified_users uuid }).discord_to_uuid
        (some d) = none := by
      show lookupD (removeMappings uuid c).discord_to_uuid (some d) = none
      rw [removeMappings_discord_to_uuid uuid d c ud h1 hdid hdne]
      exact lookupD_eraseD_self _ _ hnd2
    rw [hdu]
    rfl

/-- Claim C6, amended.  During reconciliation, when the (possibly
by-IGN-fallback) re-fetch of a cached identity succeeds but reports no
nation, or a nation outside the approved list, the identity is handed to the
dedicated departure path; provided the Discord index maps the record's
Discord ID back to the record's own UUID (departure removes through the
Discord-ID index, not by the record's UUID) and index keys are duplicate
free, the record is removed and both an immediately subsequent
`get_verified_user_by_uuid` and `get_verified_user_by_discord_id` return
nothing. -/
theorem claim_C6_theorem (now : Nat) (env : ReconcileEnv) (uuid d : String)
    (ud : UserData) (pd : PlayerData) (c : VCache)
    (h0 : uuid ≠ "")
    (h1 : lookupD c.verified_users uuid = some ud)
    (hdid : ud.discord_id = some d) (hdne : d ≠ "")
    (hign : truthyS ud.ign = true)
    (hfetch : effectiveFetch env = PyResult.success pd)
    (hdep : pd.nation = none ∨
      ∃ nd, pd.nation = some nd ∧ optMemStr nd.name env.approved_nations = false)
    (h6 : lookupD c.discord_to_uuid (some d) = some uuid)
    (hnd1 : (c.verified_users.map Prod.fst).Nodup)
    (hnd2 : (c.discord_to_uuid.map Prod.fst).Nodup) :
    (update_single_user_cache now env uuid ud c).2 = true ∧
    get_verified_user_by_uuid (update_single_user_cache now env uuid ud c).1 uuid = none ∧
    get_verified_user_by_discord_id (update_single_user_cache now env uuid ud c).1 d = none := by
  have htd : truthyS ud.discord_id = true := by
    rw [hdid]; simpa [truthyS] using hdne
  have hsv : strVal ud.discord_id = d := by rw [hdid]; rfl
  have hstep : update_single_user_cache now env uuid ud c =
      (handle_nation_departure_cache now d c, true) := by
    unfold update_single_user_cache
    rw [if_neg (by simp [htd, hign])]
    rw [hfetch]
    dsimp only
    rcases hdep with hn | ⟨nd, hn, happ⟩
    · rw [hn]
      dsimp only
      rw [hsv]
    · rw [hn]
      dsimp only
      rw [if_pos happ, hsv]
  rw [hstep]
  obtain ⟨ha, hb⟩ := departure_removes now d uuid c ud h0 h1 hdid hdne h6 hnd1 hnd2
  exact ⟨rfl, ha, hb⟩

/-- The verified-user record of player `u1` (Discord `d1`, IGN `Alice`) as
stored by `add_verified_user` at time 100. -/
def c6Ud1 : UserData :=
  { discord_id := some "d1"
    discord_username := some "User One"
    ign := some "Alice"
    player_uuid := some "u1"
    nation := some "Atlantis"
    nation_uuid := none
    town := some "Springfield"
    town_uuid := none
    is_mayor := false
    county := none
    guild_id := none
    verified_by := none
    verified_at := 100
    last_updated := 100
    last_verified_by := none
    last_verified_at := none }

/-- Cache holding two records that share the Discord ID `d1`: player `u1`
(IGN `Alice`) added first, player `u2` (IGN `Bob`) added second, so the
Discord index points `d1` at `u2`. -/
def c6CacheTwo : VCache :=
  (add_verified_user 110 "d1" "User Two" "Bob" "u2" "Atlantis" "Ham"
    false none none none none none
    (add_verified_user 100 "d1" "User One" "Alice" "u1" "Atlantis" "Springfield"
      false none none none none none (createEmptyCache 0)).1).1

/-- Reconciliation environment whose re-fetch succeeds but carries no nation
data. -/
def c6EnvDeparture : ReconcileEnv :=
  { byUuid := PyResult.success
      { name := some "Alice", uuid := some "u1", town := none, nation := none, status := none }
    byName := PyResult.failure "unused"
    approved_nations := ["Atlantis"]
    countySystem := [] }

/-- Claim C6, counterexample.  Reconciling the cached identity `u1` whose
re-fetch returns no nation data takes the departure path (second component
`true`), but the departure removal goes through the Discord-ID index, which
— after a second verification stored `u2` under the same Discord ID `d1` —
points at `u2`: the record of `u2` is removed while the departed identity
`u1` is still returned by `get_verified_user_by_uuid`, contradicting the
claim. -/
theorem claim_C6_counterexample :
    (update_single_user_cache 200 c6EnvDeparture "u1" c6Ud1 c6CacheTwo).2 = true ∧
    get_verified_user_by_uuid
      (update_single_user_cache 200 c6EnvDeparture "u1" c6Ud1 c6CacheTwo).1 "u1" =
      some c6Ud1 ∧
    get_verified_user_by_uuid
      (update_single_user_cache 200 c6EnvDeparture "u1" c6Ud1 c6CacheTwo).1 "u2" = none := by
  exact ⟨by decide, by decide, by decide⟩

/-- Cache holding the single record of player `u1`. -/
def c6CacheOne : VCache :=
  (add_verified_user 100 "d1" "User One" "Alice" "u1" "Atlantis" "Springfield"
    false none none none none none (createEmptyCache 0)).1

/-- Claim C6, witness: the amended theorem applied to the consistent
one-record cache `c6CacheOne` and the no-nation re-fetch. -/
theorem claim_C6_witness :
    (update_single_user_cache 200 c6EnvDeparture "u1" c6Ud1 c6CacheOne).2 = true ∧
    get_verified_user_by_uuid
      (update_single_user_cache 200 c6EnvDeparture "u1" c6Ud1 c6CacheOne).1 "u1" = none ∧
    get_verified_user_by_discord_id
      (update_single_user_cache 200 c6EnvDeparture "u1" c6Ud1 c6CacheOne).1 "d1" = none :=
  claim_C6_theorem 200 c6EnvDeparture "u1" "d1" c6Ud1
    { name := some "Alice", uuid := some "u1", town := none, nation := none, status := none }
    c6CacheOne (by decide) (by decide) rfl (by decide) (by decide) rfl
    (Or.inl rfl) (by decide) (by decide) (by decide)

/-! ## Verification engine (`verification/core.py`) -/

/-- Python `str.startswith(prefix)`. -/
def pyStartsWith (s pre : String) : Bool :=
  pre.toList.isPrefixOf s.toList

/-- The `VerificationResult` value object (`verification/results.py`). -/
structure VerificationResult where
  success : Bool
  message : String
  nation : Option String
  town : Option String
  contradiction_data : Option String
  is_mayor : Bool
  county : Option String
  has_county : Bool
deriving Repr, DecidableEq

/-- `VerificationResult(success, message)` with all keyword defaults
(`nation=None, town=None, contradiction_data=None, is_mayor=False,
county=None, has_county=True`). -/
def VerificationResult.mk2 (success : Bool) (message : String) : VerificationResult :=
  { success := success, message := message, nation := none, town := none,
    contradiction_data := none, is_mayor := false, county := none, has_county := true }

/-- Environment of one `verify_player` call: the registry lookups, the
configuration reads, and the response-template renderer
(`response_manager.get_message` per key, and
`build_verification_message`), which are opaque string producers. -/
structure VerifyEnv where
  playerResult : PyResult PlayerData
  linkResult : PyResult (List (Option LinkEntry))
  approved_nations : List String
  countySystem : CountySystem
  msg_api_error : String → String
  msg_contradiction_detected : String
  msg_no_nation : String → String
  msg_unapproved_nation : String → String → String
  nation_has_county_system : String → Bool
  build_verification_message :
    String → String → String → String → Bool → Option String → Bool → String → String

/-- Model of `verify_player` (`verification/core.py` lines 12-62 and the
success-message assembly at lines 64-109).  The cache is threaded through
explicitly: the function only ever reads it (the re-verification probe at
line 16), mirroring that the engine never mutates the verification cache.
On success the player record always carries a truthy UUID (the API client
returns success only then), so `strVal player_data.uuid` is the UUID the
link check receives. -/
def verify_player (env : VerifyEnv) (discord_id ign : String)
    (target_nation : Option String) (cache : VCache) : VerificationResult × VCache :=
  let existing := get_verified_user_by_discord_id cache discord_id
  let is_reverification := existing.isSome
  match env.playerResult with
  | PyResult.failure err => (VerificationResult.mk2 false (env.msg_api_error err), cache)
  | PyResult.success player_data =>
      let links := verify_discord_links env.linkResult discord_id ign (strVal player_data.uuid)
      let contradiction_msg := links.2.1
      if links.1 then
        if pyStartsWith (contradiction_msg.getD "") "Error" then
          (VerificationResult.mk2 false (contradiction_msg.getD ""), cache)
        else
          ({ VerificationResult.mk2 false env.msg_contradiction_detected with
              contradiction_data := contradiction_msg }, cache)
      else
        match player_data.nation with
        | none => (VerificationResult.mk2 false (env.msg_no_nation ign), cache)
        | some nation_data =>
            let nation_name := nation_data.name
            let nation_uuid := nation_data.uuid
            let town_name : Option String := match player_data.town with
              | some td => td.name
              | none => some "Unknown"
            let town_uuid := match player_data.town with
              | some td => td.uuid
              | none => none
            let is_mayor := pdIsMayor player_data
            if truthyS target_nation ∧ nation_name ≠ target_nation then
              (VerificationResult.mk2 false
                ("Player `" ++ ign ++ "` is in nation `" ++ pyShow nation_name ++
                  "`, not `" ++ strVal target_nation ++ "`."), cache)
            else if optMemStr nation_name env.approved_nations = false then
              (VerificationResult.mk2 false
                (env.msg_unapproved_nation ign (pyShow nation_name)), cache)
            else
              let countyRes :=
                if truthyS town_uuid then
                  if truthyS nation_uuid then
                    get_county_for_town_uuid env.countySystem (strVal nation_uuid)
                      (strVal town_uuid)
                  else
                    get_county_for_town env.countySystem (strVal nation_name)
                      (strVal town_uuid)
                else (none, none, true)
              let county_name := countyRes.1
              let has_county := countyRes.2.2
              let link_status := if links.2.2 then "✅ Linked" else "⚠️ Not linked"
              let message_base :=
                if is_reverification then "verification.update_success_base"
                else "verification.success_base"
              let nation_has_cs := env.nation_has_county_system (pyShow nation_name)
              let success_message := env.build_verification_message ign
                (pyShow town_name) (pyShow nation_name) link_status is_mayor
                county_name (has_county && nation_has_cs) message_base
              ({ success := true
                 message := success_message
                 nation := nation_name
                 town := town_name
                 contradiction_data := none
                 is_mayor := is_mayor
                 county := county_name
                 has_county := has_county }, cache)

/-- Player record of the C10 scenarios: `Steve`, nation `Borealis`. -/
def c10Player : PlayerData :=
  { name := some "Steve"
    uuid := some "pu"
    town := none
    nation := some { name := some "Borealis", uuid := some "nb" }
    status := none }

/-- Environment of the C10 counterexample: the player resolves to nation
`Borealis`, but the link endpoint reports the claimed UUID linked to a
different Discord account. -/
def c10EnvContra : VerifyEnv :=
  { playerResult := PyResult.success c10Player
    linkResult := PyResult.success [some ⟨some "d9", some "pu"⟩]
    approved_nations := ["Atlantis", "Borealis"]
    countySystem := []
    msg_api_error := fun e => "API error: " ++ e
    msg_contradiction_detected :=
      "Verification failed: contradictory link records were reported to staff."
    msg_no_nation := fun i => "No nation found for " ++ i
    msg_unapproved_nation := fun i n => "Unapproved nation " ++ n ++ " for " ++ i
    nation_has_county_system := fun _ => false
    build_verification_message := fun i t n l _ _ _ mb =>
      mb ++ ": " ++ i ++ " of " ++ t ++ ", " ++ n ++ " (" ++ l ++ ")" }

set_option maxRecDepth 4000 in
/-- Claim C10, counterexample.  The player resolves to nation `Borealis`
while `target_nation = Atlantis`, yet the result message is the
contradiction notice, not a message naming the two nations: the link check
runs before the target-nation check, and here the registry reports the
claimed UUID linked to Discord ID `d9`. -/
theorem claim_C10_counterexample :
    (verify_player c10EnvContra "555" "Steve" (some "Atlantis") (createEmptyCache 0)).1.message =
      "Verification failed: contradictory link records were reported to staff." ∧
    (verify_player c10EnvContra "555" "Steve" (some "Atlantis") (createEmptyCache 0)).1.message ≠
      "Player `Steve` is in nation `Borealis`, not `Atlantis`." := by
  exact ⟨by decide, by decide⟩

/-- Claim C10, amended.  For every call with a truthy `target_nation`, if
the player record resolves to a nation whose name differs from the target
and the link validation reports no contradiction, then the result is a
failure whose message names both the player's actual nation and the
requested one, and the cache is returned unchanged; the approved-nations
list is unconstrained, so the target check fires before the eligibility
check. -/
theorem claim_C10_theorem (env : VerifyEnv) (discord_id ign target : String)
    (pd : PlayerData) (nd : NationRef) (cache : VCache)
    (hplayer : env.playerResult = PyResult.success pd)
    (hlink : (verify_discord_links env.linkResult discord_id ign (strVal pd.uuid)).1 = false)
    (hnation : pd.nation = some nd)
    (htar : target ≠ "")
    (hdiff : nd.name ≠ some target) :
    verify_player env discord_id ign (some target) cache =
      (VerificationResult.mk2 false
        ("Player `" ++ ign ++ "` is in nation `" ++ pyShow nd.name ++
          "`, not `" ++ target ++ "`."), cache) := by
  unfold verify_player
  rw [hplayer]
  dsimp only
  rw [hlink]
  simp only [Bool.false_eq_true, if_false]
  rw [hnation]
  dsimp only
  rw [if_pos ⟨by simp [truthyS, htar], hdiff⟩]
  rfl

/-- Environment of the C10 witness: same player, empty link response (no
contradiction, not linked). -/
def c10EnvOk : VerifyEnv :=
  { c10EnvContra with linkResult := PyResult.success [] }

/-- Claim C10, witness: the amended theorem applied to the concrete
environment `c10EnvOk`, Discord ID 555, IGN `Steve`, target `Atlantis`. -/
theorem claim_C10_witness :
    verify_player c10EnvOk "555" "Steve" (some "Atlantis") (createEmptyCache 0) =
      (VerificationResult.mk2 false
        "Player `Steve` is in nation `Borealis`, not `Atlantis`.",
       createEmptyCache 0) :=
  claim_C10_theorem c10EnvOk "555" "Steve" "Atlantis" c10Player
    { name := some "Borealis", uuid := some "nb" } (createEmptyCache 0)
    rfl (by decide) rfl (by decide) (by decide)

end Discadian
